import Mathlib

/-!
Shallow embedding of `src/main.py`, a small persistent book catalog
(`Book` records, a `Library` store with load/save/add/remove/search/update
operations backed by a JSON file), together with theorems settling the
specification claims about it.

Modelling choices:
* Python `int` is `Int`; Python `str` is `String`.
* The JSON backing file is modelled by `FileContent`: it is either absent,
  present but not syntactically valid JSON, or a parsed ordered sequence of
  five-field record objects (`BookDict`, the image of `Book.to_dict`).
* Python `str.lower()` is embedded as `pyLower`, the full Unicode
  lowercase transformation of CPython (Unicode 14.0): the one-to-one
  mapping table, the U+0130 expansion, and the Final_Sigma context rule.
* `print` diagnostics and reported results become explicit return values
  (`LoadReport`, `OpResult`, `SearchResult`, the reported id of `add_book`).
* Mutation becomes state passing: each operation takes and returns a
  `Library` value (books, `current_id`, and the backing file's content).
-/

/-- One catalog record, translating class `Book` (fields `book_id`, `title`,
`author`, `year`, `status`). -/
structure Book where
  book_id : Int
  title : String
  author : String
  year : Int
  status : String
deriving DecidableEq

/-- Default status of a freshly constructed `Book`, the literal default of
`Book.__init__` in the source. -/
def defaultStatus : String := "в наличии"

/-- A serialized record object in the JSON file: the five-field dictionary
produced by `Book.to_dict`. -/
structure BookDict where
  id : Int
  title : String
  author : String
  year : Int
  status : String
deriving DecidableEq

/-- `Book.to_dict`: serialize a record to its five-field dictionary. -/
def Book.to_dict (b : Book) : BookDict :=
  ⟨b.book_id, b.title, b.author, b.year, b.status⟩

/-- `Book.from_dict`: reconstruct a record from a five-field dictionary. -/
def Book.from_dict (d : BookDict) : Book :=
  ⟨d.id, d.title, d.author, d.year, d.status⟩

/-- The state of the backing file `library.json`. -/
inductive FileContent where
  /-- The file does not exist on disk. -/
  | missing : FileContent
  /-- The file exists but is not syntactically valid JSON
  (`json.load` raises `JSONDecodeError`). -/
  | invalid : FileContent
  /-- The file exists and parses as an ordered sequence of record objects. -/
  | parsed : List BookDict → FileContent
deriving DecidableEq

/-- The in-memory store state of class `Library`: the ordered list of books,
the `current_id` counter, and the content of the backing file. -/
structure Library where
  books : List Book
  current_id : Int
  file : FileContent
deriving DecidableEq

/-- What `load_books` reports to the console. -/
inductive LoadReport where
  /-- File absent: start silently with an empty catalog. -/
  | fresh : LoadReport
  /-- File parsed: records loaded silently. -/
  | loaded : LoadReport
  /-- File unreadable: the diagnostic line is printed and the catalog
  stays empty. -/
  | unreadable : LoadReport
deriving DecidableEq

/-- `Library.load_books` (as invoked once from `__init__`, where
`books = []` and `current_id = 1`): reconstruct the store from the backing
file.  For each parsed record it appends `Book.from_dict` and updates
`current_id = max current_id (book_id + 1)`; a missing file or a JSON parse
error leaves the empty catalog, and the file itself is never written. -/
def load_books (f : FileContent) : Library × LoadReport :=
  match f with
  | .missing => (⟨[], 1, f⟩, .fresh)
  | .invalid => (⟨[], 1, f⟩, .unreadable)
  | .parsed ds =>
      let books := ds.map Book.from_dict
      let cid := books.foldl (fun c b => max c (b.book_id + 1)) 1
      (⟨books, cid, f⟩, .loaded)

/-- `Library.save_books`: overwrite the backing file with the serialization
of the current book list. -/
def save_books (lib : Library) : Library :=
  { lib with file := .parsed (lib.books.map Book.to_dict) }

/-- `Library.add_book`: construct a `Book` with id `current_id` and the
default status, append it, increment `current_id`, save, and report the
assigned id. -/
def add_book (lib : Library) (title author : String) (year : Int) :
    Library × Int :=
  let book : Book := ⟨lib.current_id, title, author, year, defaultStatus⟩
  let lib' : Library :=
    { lib with books := lib.books ++ [book], current_id := lib.current_id + 1 }
  (save_books lib', book.book_id)

/-- Outcome of `remove_book` and `update_status`: the success print versus
the not-found error print. -/
inductive OpResult where
  | success : OpResult
  | notFound : OpResult
deriving DecidableEq

/-- `self.books.remove(book_to_remove)` where `book_to_remove` is the first
book whose `book_id` matches: drop the first matching record, keep the rest
in order. -/
def eraseFirstById : List Book → Int → List Book
  | [], _ => []
  | b :: bs, i => if b.book_id = i then bs else b :: eraseFirstById bs i

/-- `Library.remove_book`: find the first book with the given id
(`next(...)`); if found, remove it and save, else report not found and
change nothing. -/
def remove_book (lib : Library) (i : Int) : Library × OpResult :=
  match lib.books.find? (fun b => b.book_id == i) with
  | some _ =>
      (save_books { lib with books := eraseFirstById lib.books i }, .success)
  | none => (lib, .notFound)

/-- In-place `book_to_update.status = new_status` on the first book whose
`book_id` matches: replace that book's status, keep everything else. -/
def updateFirstStatus : List Book → Int → String → List Book
  | [], _, _ => []
  | b :: bs, i, s =>
      if b.book_id = i then { b with status := s } :: bs
      else b :: updateFirstStatus bs i s

/-- `Library.update_status`: find the first book with the given id; if
found, overwrite its status and save, else report not found and change
nothing. -/
def update_status (lib : Library) (i : Int) (s : String) :
    Library × OpResult :=
  match lib.books.find? (fun b => b.book_id == i) with
  | some _ =>
      (save_books { lib with books := updateFirstStatus lib.books i s },
       .success)
  | none => (lib, .notFound)

/-- Result of `search_books`: either the invalid-key error print, or the
(possibly empty) ordered list of matching books. -/
inductive SearchResult where
  | invalidField : SearchResult
  | results : List Book → SearchResult
deriving DecidableEq

/-- `str(getattr(book, key, ""))` for the four allowed keys: the string form
of the requested attribute (`str` of the integer for `year`). -/
def fieldStr (b : Book) (key : String) : String :=
  if key = "title" then b.title
  else if key = "author" then b.author
  else if key = "year" then toString b.year
  else b.status

/-- The one-to-one part of the Unicode lowercase mapping used by Python's
`str.lower()` (Unicode 14.0), on codepoints: every codepoint whose full
lowercase differs from itself and is a single codepoint is translated by
the run it falls in; all other codepoints are unchanged.  The capital
sigma U+03A3 is included here with its non-final mapping U+03C3; the
context-sensitive final form and the one expanding mapping (U+0130) are
handled in `pyLowerChars`. -/
def pyLowerMap (n : Nat) : Nat :=
  (if n < 7357 then
    (if n < 497 then
      (if n < 408 then
        (if n < 390 then
          (if n < 313 then
            (if n < 216 then
              (if n < 192 then
                (if 65 ≤ n ∧ n ≤ 90 then n + 32 else n)
              else
                (if 192 ≤ n ∧ n ≤ 214 then n + 32 else n))
            else
              (if n < 256 then
                (if 216 ≤ n ∧ n ≤ 222 then n + 32 else n)
              else
                (if n < 306 then
                  (if 256 ≤ n ∧ n ≤ 302 ∧ n % 2 = 0 then n + 1 else n)
                else
                  (if 306 ≤ n ∧ n ≤ 310 ∧ n % 2 = 0 then n + 1 else n))))
          else
            (if n < 377 then
              (if n < 330 then
                (if 313 ≤ n ∧ n ≤ 327 ∧ n % 2 = 1 then n + 1 else n)
              else
                (if n < 376 then
                  (if 330 ≤ n ∧ n ≤ 374 ∧ n % 2 = 0 then n + 1 else n)
                else
                  (if 376 ≤ n ∧ n ≤ 376 then n - 121 else n)))
            else
              (if n < 385 then
                (if 377 ≤ n ∧ n ≤ 381 ∧ n % 2 = 1 then n + 1 else n)
              else
                (if n < 386 then
                  (if 385 ≤ n ∧ n ≤ 385 then n + 210 else n)
                else
                  (if 386 ≤ n ∧ n ≤ 388 ∧ n % 2 = 0 then n + 1 else n)))))
        else
          (if n < 400 then
            (if n < 395 then
              (if n < 391 then
                (if 390 ≤ n ∧ n ≤ 390 then n + 206 else n)
              else
                (if n < 393 then
                  (if 391 ≤ n ∧ n ≤ 391 then n + 1 else n)
                else
                  (if 393 ≤ n ∧ n ≤ 394 then n + 205 else n)))
            else
              (if n < 398 then
                (if 395 ≤ n ∧ n ≤ 395 then n + 1 else n)
              else
                (if n < 399 then
                  (if 398 ≤ n ∧ n ≤ 398 then n + 79 else n)
                else
                  (if 399 ≤ n ∧ n ≤ 399 then n + 202 else n))))
          else
            (if n < 404 then
              (if n < 401 then
                (if 400 ≤ n ∧ n ≤ 400 then n + 203 else n)
              else
                (if n < 403 then
                  (if 401 ≤ n ∧ n ≤ 401 then n + 1 else n)
                else
                  (if 403 ≤ n ∧ n ≤ 403 then n + 205 else n)))
            else
              (if n < 406 then
                (if 404 ≤ n ∧ n ≤ 404 then n + 207 else n)
              else
                (if n < 407 then
                  (if 406 ≤ n ∧ n ≤ 406 then n + 211 else n)
                else
                  (if 407 ≤ n ∧ n ≤ 407 then n + 209 else n))))))
      else
        (if n < 433 then
          (if n < 422 then
            (if n < 413 then
              (if n < 412 then
                (if 408 ≤ n ∧ n ≤ 408 then n + 1 else n)
              else
                (if 412 ≤ n ∧ n ≤ 412 then n + 211 else n))
            else
              (if n < 415 then
                (if 413 ≤ n ∧ n ≤ 413 then n + 213 else n)
              else
                (if n < 416 then
                  (if 415 ≤ n ∧ n ≤ 415 then n + 214 else n)
                else
                  (if 416 ≤ n ∧ n ≤ 420 ∧ n % 2 = 0 then n + 1 else n))))
          else
            (if n < 428 then
              (if n < 423 then
                (if 422 ≤ n ∧ n ≤ 422 then n + 218 else n)
              else
                (if n < 425 then
                  (if 423 ≤ n ∧ n ≤ 423 then n + 1 else n)
                else
                  (if 425 ≤ n ∧ n ≤ 425 then n + 218 else n)))
            else
              (if n < 430 then
                (if 428 ≤ n ∧ n ≤ 428 then n + 1 else n)
              else
                (if n < 431 then
                  (if 430 ≤ n ∧ n ≤ 430 then n + 218 else n)
                else
                  (if 431 ≤ n ∧ n ≤ 431 then n + 1 else n)))))
        else
          (if n < 453 then
            (if n < 440 then
              (if n < 435 then
                (if 433 ≤ n ∧ n ≤ 434 then n + 217 else n)
              else
                (if n < 439 then
                  (if 435 ≤ n ∧ n ≤ 437 ∧ n % 2 = 1 then n + 1 else n)
                else
                  (if 439 ≤ n ∧ n ≤ 439 then n + 219 else n)))
            else
              (if n < 444 then
                (if 440 ≤ n ∧ n ≤ 440 then n + 1 else n)
              else
                (if n < 452 then
                  (if 444 ≤ n ∧ n ≤ 444 then n + 1 else n)
                else
                  (if 452 ≤ n ∧ n ≤ 452 then n + 2 else n))))
          else
            (if n < 458 then
              (if n < 455 then
                (if 453 ≤ n ∧ n ≤ 453 then n + 1 else n)
              else
                (if n < 456 then
                  (if 455 ≤ n ∧ n ≤ 455 then n + 2 else n)
                else
                  (if 456 ≤ n ∧ n ≤ 456 then n + 1 else n)))
            else
              (if n < 459 then
                (if 458 ≤ n ∧ n ≤ 458 then n + 2 else n)
              else
                (if n < 478 then
                  (if 459 ≤ n ∧ n ≤ 475 ∧ n % 2 = 1 then n + 1 else n)
                else
                  (if 478 ≤ n ∧ n ≤ 494 ∧ n % 2 = 0 then n + 1 else n)))))))
    else
      (if n < 913 then
        (if n < 577 then
          (if n < 544 then
            (if n < 502 then
              (if n < 498 then
                (if 497 ≤ n ∧ n ≤ 497 then n + 2 else n)
              else
                (if 498 ≤ n ∧ n ≤ 500 ∧ n % 2 = 0 then n + 1 else n))
            else
              (if n < 503 then
                (if 502 ≤ n ∧ n ≤ 502 then n - 97 else n)
              else
                (if n < 504 then
                  (if 503 ≤ n ∧ n ≤ 503 then n - 56 else n)
                else
                  (if 504 ≤ n ∧ n ≤ 542 ∧ n % 2 = 0 then n + 1 else n))))
          else
            (if n < 571 then
              (if n < 546 then
                (if 544 ≤ n ∧ n ≤ 544 then n - 130 else n)
              else
                (if n < 570 then
                  (if 546 ≤ n ∧ n ≤ 562 ∧ n % 2 = 0 then n + 1 else n)
                else
                  (if 570 ≤ n ∧ n ≤ 570 then n + 10795 else n)))
            else
              (if n < 573 then
                (if 571 ≤ n ∧ n ≤ 571 then n + 1 else n)
              else
                (if n < 574 then
                  (if 573 ≤ n ∧ n ≤ 573 then n - 163 else n)
                else
                  (if 574 ≤ n ∧ n ≤ 574 then n + 10792 else n)))))
        else
          (if n < 886 then
            (if n < 581 then
              (if n < 579 then
                (if 577 ≤ n ∧ n ≤ 577 then n + 1 else n)
              else
                (if n < 580 then
                  (if 579 ≤ n ∧ n ≤ 579 then n - 195 else n)
                else
                  (if 580 ≤ n ∧ n ≤ 580 then n + 69 else n)))
            else
              (if n < 582 then
                (if 581 ≤ n ∧ n ≤ 581 then n + 71 else n)
              else
                (if n < 880 then
                  (if 582 ≤ n ∧ n ≤ 590 ∧ n % 2 = 0 then n + 1 else n)
                else
                  (if 880 ≤ n ∧ n ≤ 882 ∧ n % 2 = 0 then n + 1 else n))))
          else
            (if n < 904 then
              (if n < 895 then
                (if 886 ≤ n ∧ n ≤ 886 then n + 1 else n)
              else
                (if n < 902 then
                  (if 895 ≤ n ∧ n ≤ 895 then n + 116 else n)
                else
                  (if 902 ≤ n ∧ n ≤ 902 then n + 38 else n)))
            else
              (if n < 908 then
                (if 904 ≤ n ∧ n ≤ 906 then n + 37 else n)
              else
                (if n < 910 then
                  (if 908 ≤ n ∧ n ≤ 908 then n + 64 else n)
                else
                  (if 910 ≤ n ∧ n ≤ 911 then n + 63 else n))))))
      else
        (if n < 1120 then
          (if n < 1015 then
            (if n < 975 then
              (if n < 931 then
                (if 913 ≤ n ∧ n ≤ 929 then n + 32 else n)
              else
                (if 931 ≤ n ∧ n ≤ 939 then n + 32 else n))
            else
              (if n < 984 then
                (if 975 ≤ n ∧ n ≤ 975 then n + 8 else n)
              else
                (if n < 1012 then
                  (if 984 ≤ n ∧ n ≤ 1006 ∧ n % 2 = 0 then n + 1 else n)
                else
                  (if 1012 ≤ n ∧ n ≤ 1012 then n - 60 else n))))
          else
            (if n < 1021 then
              (if n < 1017 then
                (if 1015 ≤ n ∧ n ≤ 1015 then n + 1 else n)
              else
                (if n < 1018 then
                  (if 1017 ≤ n ∧ n ≤ 1017 then n - 7 else n)
                else
                  (if 1018 ≤ n ∧ n ≤ 1018 then n + 1 else n)))
            else
              (if n < 1024 then
                (if 1021 ≤ n ∧ n ≤ 1023 then n - 130 else n)
              else
                (if n < 1040 then
                  (if 1024 ≤ n ∧ n ≤ 1039 then n + 80 else n)
                else
                  (if 1040 ≤ n ∧ n ≤ 1071 then n + 32 else n)))))
        else
          (if n < 4256 then
            (if n < 1217 then
              (if n < 1162 then
                (if 1120 ≤ n ∧ n ≤ 1152 ∧ n % 2 = 0 then n + 1 else n)
              else
                (if n < 1216 then
                  (if 1162 ≤ n ∧ n ≤ 1214 ∧ n % 2 = 0 then n + 1 else n)
                else
                  (if 1216 ≤ n ∧ n ≤ 1216 then n + 15 else n)))
            else
              (if n < 1232 then
                (if 1217 ≤ n ∧ n ≤ 1229 ∧ n % 2 = 1 then n + 1 else n)
              else
                (if n < 1329 then
                  (if 1232 ≤ n ∧ n ≤ 1326 ∧ n % 2 = 0 then n + 1 else n)
                else
                  (if 1329 ≤ n ∧ n ≤ 1366 then n + 48 else n))))
          else
            (if n < 5024 then
              (if n < 4295 then
                (if 4256 ≤ n ∧ n ≤ 4293 then n + 7264 else n)
              else
                (if n < 4301 then
                  (if 4295 ≤ n ∧ n ≤ 4295 then n + 7264 else n)
                else
                  (if 4301 ≤ n ∧ n ≤ 4301 then n + 7264 else n)))
            else
              (if n < 5104 then
                (if 5024 ≤ n ∧ n ≤ 5103 then n + 38864 else n)
              else
                (if n < 7312 then
                  (if 5104 ≤ n ∧ n ≤ 5109 then n + 8 else n)
                else
                  (if 7312 ≤ n ∧ n ≤ 7354 then n - 3008 else n))))))))
  else
    (if n < 11376 then
      (if n < 8154 then
        (if n < 8029 then
          (if n < 7960 then
            (if n < 7838 then
              (if n < 7680 then
                (if 7357 ≤ n ∧ n ≤ 7359 then n - 3008 else n)
              else
                (if 7680 ≤ n ∧ n ≤ 7828 ∧ n % 2 = 0 then n + 1 else n))
            else
              (if n < 7840 then
                (if 7838 ≤ n ∧ n ≤ 7838 then n - 7615 else n)
              else
                (if n < 7944 then
                  (if 7840 ≤ n ∧ n ≤ 7934 ∧ n % 2 = 0 then n + 1 else n)
                else
                  (if 7944 ≤ n ∧ n ≤ 7951 then n - 8 else n))))
          else
            (if n < 8008 then
              (if n < 7976 then
                (if 7960 ≤ n ∧ n ≤ 7965 then n - 8 else n)
              else
                (if n < 7992 then
                  (if 7976 ≤ n ∧ n ≤ 7983 then n - 8 else n)
                else
                  (if 7992 ≤ n ∧ n ≤ 7999 then n - 8 else n)))
            else
              (if n < 8025 then
                (if 8008 ≤ n ∧ n ≤ 8013 then n - 8 else n)
              else
                (if n < 8027 then
                  (if 8025 ≤ n ∧ n ≤ 8025 then n - 8 else n)
                else
                  (if 8027 ≤ n ∧ n ≤ 8027 then n - 8 else n)))))
        else
          (if n < 8120 then
            (if n < 8072 then
              (if n < 8031 then
                (if 8029 ≤ n ∧ n ≤ 8029 then n - 8 else n)
              else
                (if n < 8040 then
                  (if 8031 ≤ n ∧ n ≤ 8031 then n - 8 else n)
                else
                  (if 8040 ≤ n ∧ n ≤ 8047 then n - 8 else n)))
            else
              (if n < 8088 then
                (if 8072 ≤ n ∧ n ≤ 8079 then n - 8 else n)
              else
                (if n < 8104 then
                  (if 8088 ≤ n ∧ n ≤ 8095 then n - 8 else n)
                else
                  (if 8104 ≤ n ∧ n ≤ 8111 then n - 8 else n))))
          else
            (if n < 8136 then
              (if n < 8122 then
                (if 8120 ≤ n ∧ n ≤ 8121 then n - 8 else n)
              else
                (if n < 8124 then
                  (if 8122 ≤ n ∧ n ≤ 8123 then n - 74 else n)
                else
                  (if 8124 ≤ n ∧ n ≤ 8124 then n - 9 else n)))
            else
              (if n < 8140 then
                (if 8136 ≤ n ∧ n ≤ 8139 then n - 86 else n)
              else
                (if n < 8152 then
                  (if 8140 ≤ n ∧ n ≤ 8140 then n - 9 else n)
                else
                  (if 8152 ≤ n ∧ n ≤ 8153 then n - 8 else n))))))
      else
        (if n < 8544 then
          (if n < 8186 then
            (if n < 8170 then
              (if n < 8168 then
                (if 8154 ≤ n ∧ n ≤ 8155 then n - 100 else n)
              else
                (if 8168 ≤ n ∧ n ≤ 8169 then n - 8 else n))
            else
              (if n < 8172 then
                (if 8170 ≤ n ∧ n ≤ 8171 then n - 112 else n)
              else
                (if n < 8184 then
                  (if 8172 ≤ n ∧ n ≤ 8172 then n - 7 else n)
                else
                  (if 8184 ≤ n ∧ n ≤ 8185 then n - 128 else n))))
          else
            (if n < 8490 then
              (if n < 8188 then
                (if 8186 ≤ n ∧ n ≤ 8187 then n - 126 else n)
              else
                (if n < 8486 then
                  (if 8188 ≤ n ∧ n ≤ 8188 then n - 9 else n)
                else
                  (if 8486 ≤ n ∧ n ≤ 8486 then n - 7517 else n)))
            else
              (if n < 8491 then
                (if 8490 ≤ n ∧ n ≤ 8490 then n - 8383 else n)
              else
                (if n < 8498 then
                  (if 8491 ≤ n ∧ n ≤ 8491 then n - 8262 else n)
                else
                  (if 8498 ≤ n ∧ n ≤ 8498 then n + 28 else n)))))
        else
          (if n < 11363 then
            (if n < 11264 then
              (if n < 8579 then
                (if 8544 ≤ n ∧ n ≤ 8559 then n + 16 else n)
              else
                (if n < 9398 then
                  (if 8579 ≤ n ∧ n ≤ 8579 then n + 1 else n)
                else
                  (if 9398 ≤ n ∧ n ≤ 9423 then n + 26 else n)))
            else
              (if n < 11360 then
                (if 11264 ≤ n ∧ n ≤ 11311 then n + 48 else n)
              else
                (if n < 11362 then
                  (if 11360 ≤ n ∧ n ≤ 11360 then n + 1 else n)
                else
                  (if 11362 ≤ n ∧ n ≤ 11362 then n - 10743 else n))))
          else
            (if n < 11373 then
              (if n < 11364 then
                (if 11363 ≤ n ∧ n ≤ 11363 then n - 3814 else n)
              else
                (if n < 11367 then
                  (if 11364 ≤ n ∧ n ≤ 11364 then n - 10727 else n)
                else
                  (if 11367 ≤ n ∧ n ≤ 11371 ∧ n % 2 = 1 then n + 1 else n)))
            else
              (if n < 11374 then
                (if 11373 ≤ n ∧ n ≤ 11373 then n - 10780 else n)
              else
                (if n < 11375 then
                  (if 11374 ≤ n ∧ n ≤ 11374 then n - 10749 else n)
                else
                  (if 11375 ≤ n ∧ n ≤ 11375 then n - 10783 else n)))))))
    else
      (if n < 42928 then
        (if n < 42873 then
          (if n < 11499 then
            (if n < 11381 then
              (if n < 11378 then
                (if 11376 ≤ n ∧ n ≤ 11376 then n - 10782 else n)
              else
                (if 11378 ≤ n ∧ n ≤ 11378 then n + 1 else n))
            else
              (if n < 11390 then
                (if 11381 ≤ n ∧ n ≤ 11381 then n + 1 else n)
              else
                (if n < 11392 then
                  (if 11390 ≤ n ∧ n ≤ 11391 then n - 10815 else n)
                else
                  (if 11392 ≤ n ∧ n ≤ 11490 ∧ n % 2 = 0 then n + 1 else n))))
          else
            (if n < 42624 then
              (if n < 11506 then
                (if 11499 ≤ n ∧ n ≤ 11501 ∧ n % 2 = 1 then n + 1 else n)
              else
                (if n < 42560 then
                  (if 11506 ≤ n ∧ n ≤ 11506 then n + 1 else n)
                else
                  (if 42560 ≤ n ∧ n ≤ 42604 ∧ n % 2 = 0 then n + 1 else n)))
            else
              (if n < 42786 then
                (if 42624 ≤ n ∧ n ≤ 42650 ∧ n % 2 = 0 then n + 1 else n)
              else
                (if n < 42802 then
                  (if 42786 ≤ n ∧ n ≤ 42798 ∧ n % 2 = 0 then n + 1 else n)
                else
                  (if 42802 ≤ n ∧ n ≤ 42862 ∧ n % 2 = 0 then n + 1 else n)))))
        else
          (if n < 42902 then
            (if n < 42891 then
              (if n < 42877 then
                (if 42873 ≤ n ∧ n ≤ 42875 ∧ n % 2 = 1 then n + 1 else n)
              else
                (if n < 42878 then
                  (if 42877 ≤ n ∧ n ≤ 42877 then n - 35332 else n)
                else
                  (if 42878 ≤ n ∧ n ≤ 42886 ∧ n % 2 = 0 then n + 1 else n)))
            else
              (if n < 42893 then
                (if 42891 ≤ n ∧ n ≤ 42891 then n + 1 else n)
              else
                (if n < 42896 then
                  (if 42893 ≤ n ∧ n ≤ 42893 then n - 42280 else n)
                else
                  (if 42896 ≤ n ∧ n ≤ 42898 ∧ n % 2 = 0 then n + 1 else n))))
          else
            (if n < 42924 then
              (if n < 42922 then
                (if 42902 ≤ n ∧ n ≤ 42920 ∧ n % 2 = 0 then n + 1 else n)
              else
                (if n < 42923 then
                  (if 42922 ≤ n ∧ n ≤ 42922 then n - 42308 else n)
                else
                  (if 42923 ≤ n ∧ n ≤ 42923 then n - 42319 else n)))
            else
              (if n < 42925 then
                (if 42924 ≤ n ∧ n ≤ 42924 then n - 42315 else n)
              else
                (if n < 42926 then
                  (if 42925 ≤ n ∧ n ≤ 42925 then n - 42305 else n)
                else
                  (if 42926 ≤ n ∧ n ≤ 42926 then n - 42308 else n))))))
      else
        (if n < 42997 then
          (if n < 42948 then
            (if n < 42930 then
              (if n < 42929 then
                (if 42928 ≤ n ∧ n ≤ 42928 then n - 42258 else n)
              else
                (if 42929 ≤ n ∧ n ≤ 42929 then n - 42282 else n))
            else
              (if n < 42931 then
                (if 42930 ≤ n ∧ n ≤ 42930 then n - 42261 else n)
              else
                (if n < 42932 then
                  (if 42931 ≤ n ∧ n ≤ 42931 then n + 928 else n)
                else
                  (if 42932 ≤ n ∧ n ≤ 42946 ∧ n % 2 = 0 then n + 1 else n))))
          else
            (if n < 42951 then
              (if n < 42949 then
                (if 42948 ≤ n ∧ n ≤ 42948 then n - 48 else n)
              else
                (if n < 42950 then
                  (if 42949 ≤ n ∧ n ≤ 42949 then n - 42307 else n)
                else
                  (if 42950 ≤ n ∧ n ≤ 42950 then n - 35384 else n)))
            else
              (if n < 42960 then
                (if 42951 ≤ n ∧ n ≤ 42953 ∧ n % 2 = 1 then n + 1 else n)
              else
                (if n < 42966 then
                  (if 42960 ≤ n ∧ n ≤ 42960 then n + 1 else n)
                else
                  (if 42966 ≤ n ∧ n ≤ 42968 ∧ n % 2 = 0 then n + 1 else n)))))
        else
          (if n < 66956 then
            (if n < 66736 then
              (if n < 65313 then
                (if 42997 ≤ n ∧ n ≤ 42997 then n + 1 else n)
              else
                (if n < 66560 then
                  (if 65313 ≤ n ∧ n ≤ 65338 then n + 32 else n)
                else
                  (if 66560 ≤ n ∧ n ≤ 66599 then n + 40 else n)))
            else
              (if n < 66928 then
                (if 66736 ≤ n ∧ n ≤ 66771 then n + 40 else n)
              else
                (if n < 66940 then
                  (if 66928 ≤ n ∧ n ≤ 66938 then n + 39 else n)
                else
                  (if 66940 ≤ n ∧ n ≤ 66954 then n + 39 else n))))
          else
            (if n < 71840 then
              (if n < 66964 then
                (if 66956 ≤ n ∧ n ≤ 66962 then n + 39 else n)
              else
                (if n < 68736 then
                  (if 66964 ≤ n ∧ n ≤ 66965 then n + 39 else n)
                else
                  (if 68736 ≤ n ∧ n ≤ 68786 then n + 64 else n)))
            else
              (if n < 93760 then
                (if 71840 ≤ n ∧ n ≤ 71871 then n + 32 else n)
              else
                (if n < 125184 then
                  (if 93760 ≤ n ∧ n ≤ 93791 then n + 32 else n)
                else
                  (if 125184 ≤ n ∧ n ≤ 125217 then n + 34 else n)))))))))

/-- The `Cased` test consulted by Python's Final_Sigma rule, restricted to
non-case-ignorable codepoints (the only ones on which the rule consults
it), as range runs. -/
def pyCased (n : Nat) : Bool :=
  (if n < 11390 then
    (if n < 7680 then
      (if n < 910 then
        (if n < 452 then
          (if n < 186 then
            (if n < 170 then
              (if n < 97 then
                decide (65 ≤ n ∧ n ≤ 90)
              else
                decide (97 ≤ n ∧ n ≤ 122))
            else
              (if n < 181 then
                decide (170 ≤ n ∧ n ≤ 170)
              else
                decide (181 ≤ n ∧ n ≤ 181)))
          else
            (if n < 216 then
              (if n < 192 then
                decide (186 ≤ n ∧ n ≤ 186)
              else
                decide (192 ≤ n ∧ n ≤ 214))
            else
              (if n < 248 then
                decide (216 ≤ n ∧ n ≤ 246)
              else
                (if n < 444 then
                  decide (248 ≤ n ∧ n ≤ 442)
                else
                  decide (444 ≤ n ∧ n ≤ 447)))))
        else
          (if n < 891 then
            (if n < 880 then
              (if n < 661 then
                decide (452 ≤ n ∧ n ≤ 659)
              else
                decide (661 ≤ n ∧ n ≤ 687))
            else
              (if n < 886 then
                decide (880 ≤ n ∧ n ≤ 883)
              else
                decide (886 ≤ n ∧ n ≤ 887)))
          else
            (if n < 902 then
              (if n < 895 then
                decide (891 ≤ n ∧ n ≤ 893)
              else
                decide (895 ≤ n ∧ n ≤ 895))
            else
              (if n < 904 then
                decide (902 ≤ n ∧ n ≤ 902)
              else
                (if n < 908 then
                  decide (904 ≤ n ∧ n ≤ 906)
                else
                  decide (908 ≤ n ∧ n ≤ 908))))))
      else
        (if n < 4304 then
          (if n < 1329 then
            (if n < 1015 then
              (if n < 931 then
                decide (910 ≤ n ∧ n ≤ 929)
              else
                decide (931 ≤ n ∧ n ≤ 1013))
            else
              (if n < 1162 then
                decide (1015 ≤ n ∧ n ≤ 1153)
              else
                decide (1162 ≤ n ∧ n ≤ 1327)))
          else
            (if n < 4256 then
              (if n < 1376 then
                decide (1329 ≤ n ∧ n ≤ 1366)
              else
                decide (1376 ≤ n ∧ n ≤ 1416))
            else
              (if n < 4295 then
                decide (4256 ≤ n ∧ n ≤ 4293)
              else
                (if n < 4301 then
                  decide (4295 ≤ n ∧ n ≤ 4295)
                else
                  decide (4301 ≤ n ∧ n ≤ 4301)))))
        else
          (if n < 7312 then
            (if n < 5024 then
              (if n < 4349 then
                decide (4304 ≤ n ∧ n ≤ 4346)
              else
                decide (4349 ≤ n ∧ n ≤ 4351))
            else
              (if n < 5112 then
                decide (5024 ≤ n ∧ n ≤ 5109)
              else
                (if n < 7296 then
                  decide (5112 ≤ n ∧ n ≤ 5117)
                else
                  decide (7296 ≤ n ∧ n ≤ 7304))))
          else
            (if n < 7424 then
              (if n < 7357 then
                decide (7312 ≤ n ∧ n ≤ 7354)
              else
                decide (7357 ≤ n ∧ n ≤ 7359))
            else
              (if n < 7531 then
                decide (7424 ≤ n ∧ n ≤ 7467)
              else
                (if n < 7545 then
                  decide (7531 ≤ n ∧ n ≤ 7543)
                else
                  decide (7545 ≤ n ∧ n ≤ 7578)))))))
    else
      (if n < 8182 then
        (if n < 8064 then
          (if n < 8016 then
            (if n < 7968 then
              (if n < 7960 then
                decide (7680 ≤ n ∧ n ≤ 7957)
              else
                decide (7960 ≤ n ∧ n ≤ 7965))
            else
              (if n < 8008 then
                decide (7968 ≤ n ∧ n ≤ 8005)
              else
                decide (8008 ≤ n ∧ n ≤ 8013)))
          else
            (if n < 8027 then
              (if n < 8025 then
                decide (8016 ≤ n ∧ n ≤ 8023)
              else
                decide (8025 ≤ n ∧ n ≤ 8025))
            else
              (if n < 8029 then
                decide (8027 ≤ n ∧ n ≤ 8027)
              else
                (if n < 8031 then
                  decide (8029 ≤ n ∧ n ≤ 8029)
                else
                  decide (8031 ≤ n ∧ n ≤ 8061)))))
        else
          (if n < 8134 then
            (if n < 8126 then
              (if n < 8118 then
                decide (8064 ≤ n ∧ n ≤ 8116)
              else
                decide (8118 ≤ n ∧ n ≤ 8124))
            else
              (if n < 8130 then
                decide (8126 ≤ n ∧ n ≤ 8126)
              else
                decide (8130 ≤ n ∧ n ≤ 8132)))
          else
            (if n < 8150 then
              (if n < 8144 then
                decide (8134 ≤ n ∧ n ≤ 8140)
              else
                decide (8144 ≤ n ∧ n ≤ 8147))
            else
              (if n < 8160 then
                decide (8150 ≤ n ∧ n ≤ 8155)
              else
                (if n < 8178 then
                  decide (8160 ≤ n ∧ n ≤ 8172)
                else
                  decide (8178 ≤ n ∧ n ≤ 8180))))))
      else
        (if n < 8490 then
          (if n < 8469 then
            (if n < 8455 then
              (if n < 8450 then
                decide (8182 ≤ n ∧ n ≤ 8188)
              else
                decide (8450 ≤ n ∧ n ≤ 8450))
            else
              (if n < 8458 then
                decide (8455 ≤ n ∧ n ≤ 8455)
              else
                decide (8458 ≤ n ∧ n ≤ 8467)))
          else
            (if n < 8484 then
              (if n < 8473 then
                decide (8469 ≤ n ∧ n ≤ 8469)
              else
                decide (8473 ≤ n ∧ n ≤ 8477))
            else
              (if n < 8486 then
                decide (8484 ≤ n ∧ n ≤ 8484)
              else
                (if n < 8488 then
                  decide (8486 ≤ n ∧ n ≤ 8486)
                else
                  decide (8488 ≤ n ∧ n ≤ 8488)))))
        else
          (if n < 8526 then
            (if n < 8505 then
              (if n < 8495 then
                decide (8490 ≤ n ∧ n ≤ 8493)
              else
                decide (8495 ≤ n ∧ n ≤ 8500))
            else
              (if n < 8508 then
                decide (8505 ≤ n ∧ n ≤ 8505)
              else
                (if n < 8517 then
                  decide (8508 ≤ n ∧ n ≤ 8511)
                else
                  decide (8517 ≤ n ∧ n ≤ 8521))))
          else
            (if n < 8579 then
              (if n < 8544 then
                decide (8526 ≤ n ∧ n ≤ 8526)
              else
                decide (8544 ≤ n ∧ n ≤ 8575))
            else
              (if n < 9398 then
                decide (8579 ≤ n ∧ n ≤ 8580)
              else
                (if n < 11264 then
                  decide (9398 ≤ n ∧ n ≤ 9449)
                else
                  decide (11264 ≤ n ∧ n ≤ 11387))))))))
  else
    (if n < 71840 then
      (if n < 43872 then
        (if n < 42865 then
          (if n < 11559 then
            (if n < 11506 then
              (if n < 11499 then
                decide (11390 ≤ n ∧ n ≤ 11492)
              else
                decide (11499 ≤ n ∧ n ≤ 11502))
            else
              (if n < 11520 then
                decide (11506 ≤ n ∧ n ≤ 11507)
              else
                decide (11520 ≤ n ∧ n ≤ 11557)))
          else
            (if n < 42560 then
              (if n < 11565 then
                decide (11559 ≤ n ∧ n ≤ 11559)
              else
                decide (11565 ≤ n ∧ n ≤ 11565))
            else
              (if n < 42624 then
                decide (42560 ≤ n ∧ n ≤ 42605)
              else
                (if n < 42786 then
                  decide (42624 ≤ n ∧ n ≤ 42651)
                else
                  decide (42786 ≤ n ∧ n ≤ 42863)))))
        else
          (if n < 42963 then
            (if n < 42896 then
              (if n < 42891 then
                decide (42865 ≤ n ∧ n ≤ 42887)
              else
                decide (42891 ≤ n ∧ n ≤ 42894))
            else
              (if n < 42960 then
                decide (42896 ≤ n ∧ n ≤ 42954)
              else
                decide (42960 ≤ n ∧ n ≤ 42961)))
          else
            (if n < 42997 then
              (if n < 42965 then
                decide (42963 ≤ n ∧ n ≤ 42963)
              else
                decide (42965 ≤ n ∧ n ≤ 42969))
            else
              (if n < 43002 then
                decide (42997 ≤ n ∧ n ≤ 42998)
              else
                (if n < 43824 then
                  decide (43002 ≤ n ∧ n ≤ 43002)
                else
                  decide (43824 ≤ n ∧ n ≤ 43866))))))
      else
        (if n < 66928 then
          (if n < 65313 then
            (if n < 64256 then
              (if n < 43888 then
                decide (43872 ≤ n ∧ n ≤ 43880)
              else
                decide (43888 ≤ n ∧ n ≤ 43967))
            else
              (if n < 64275 then
                decide (64256 ≤ n ∧ n ≤ 64262)
              else
                decide (64275 ≤ n ∧ n ≤ 64279)))
          else
            (if n < 66560 then
              (if n < 65345 then
                decide (65313 ≤ n ∧ n ≤ 65338)
              else
                decide (65345 ≤ n ∧ n ≤ 65370))
            else
              (if n < 66736 then
                decide (66560 ≤ n ∧ n ≤ 66639)
              else
                (if n < 66776 then
                  decide (66736 ≤ n ∧ n ≤ 66771)
                else
                  decide (66776 ≤ n ∧ n ≤ 66811)))))
        else
          (if n < 66979 then
            (if n < 66956 then
              (if n < 66940 then
                decide (66928 ≤ n ∧ n ≤ 66938)
              else
                decide (66940 ≤ n ∧ n ≤ 66954))
            else
              (if n < 66964 then
                decide (66956 ≤ n ∧ n ≤ 66962)
              else
                (if n < 66967 then
                  decide (66964 ≤ n ∧ n ≤ 66965)
                else
                  decide (66967 ≤ n ∧ n ≤ 66977))))
          else
            (if n < 67003 then
              (if n < 66995 then
                decide (66979 ≤ n ∧ n ≤ 66993)
              else
                decide (66995 ≤ n ∧ n ≤ 67001))
            else
              (if n < 68736 then
                decide (67003 ≤ n ∧ n ≤ 67004)
              else
                (if n < 68800 then
                  decide (68736 ≤ n ∧ n ≤ 68786)
                else
                  decide (68800 ≤ n ∧ n ≤ 68850)))))))
    else
      (if n < 120138 then
        (if n < 119995 then
          (if n < 119966 then
            (if n < 119808 then
              (if n < 93760 then
                decide (71840 ≤ n ∧ n ≤ 71903)
              else
                decide (93760 ≤ n ∧ n ≤ 93823))
            else
              (if n < 119894 then
                decide (119808 ≤ n ∧ n ≤ 119892)
              else
                decide (119894 ≤ n ∧ n ≤ 119964)))
          else
            (if n < 119973 then
              (if n < 119970 then
                decide (119966 ≤ n ∧ n ≤ 119967)
              else
                decide (119970 ≤ n ∧ n ≤ 119970))
            else
              (if n < 119977 then
                decide (119973 ≤ n ∧ n ≤ 119974)
              else
                (if n < 119982 then
                  decide (119977 ≤ n ∧ n ≤ 119980)
                else
                  decide (119982 ≤ n ∧ n ≤ 119993)))))
        else
          (if n < 120086 then
            (if n < 120005 then
              (if n < 119997 then
                decide (119995 ≤ n ∧ n ≤ 119995)
              else
                decide (119997 ≤ n ∧ n ≤ 120003))
            else
              (if n < 120071 then
                decide (120005 ≤ n ∧ n ≤ 120069)
              else
                (if n < 120077 then
                  decide (120071 ≤ n ∧ n ≤ 120074)
                else
                  decide (120077 ≤ n ∧ n ≤ 120084))))
          else
            (if n < 120123 then
              (if n < 120094 then
                decide (120086 ≤ n ∧ n ≤ 120092)
              else
                decide (120094 ≤ n ∧ n ≤ 120121))
            else
              (if n < 120128 then
                decide (120123 ≤ n ∧ n ≤ 120126)
              else
                (if n < 120134 then
                  decide (120128 ≤ n ∧ n ≤ 120132)
                else
                  decide (120134 ≤ n ∧ n ≤ 120134))))))
      else
        (if n < 120688 then
          (if n < 120540 then
            (if n < 120488 then
              (if n < 120146 then
                decide (120138 ≤ n ∧ n ≤ 120144)
              else
                decide (120146 ≤ n ∧ n ≤ 120485))
            else
              (if n < 120514 then
                decide (120488 ≤ n ∧ n ≤ 120512)
              else
                decide (120514 ≤ n ∧ n ≤ 120538)))
          else
            (if n < 120598 then
              (if n < 120572 then
                decide (120540 ≤ n ∧ n ≤ 120570)
              else
                decide (120572 ≤ n ∧ n ≤ 120596))
            else
              (if n < 120630 then
                decide (120598 ≤ n ∧ n ≤ 120628)
              else
                (if n < 120656 then
                  decide (120630 ≤ n ∧ n ≤ 120654)
                else
                  decide (120656 ≤ n ∧ n ≤ 120686)))))
        else
          (if n < 122635 then
            (if n < 120746 then
              (if n < 120714 then
                decide (120688 ≤ n ∧ n ≤ 120712)
              else
                decide (120714 ≤ n ∧ n ≤ 120744))
            else
              (if n < 120772 then
                decide (120746 ≤ n ∧ n ≤ 120770)
              else
                (if n < 122624 then
                  decide (120772 ≤ n ∧ n ≤ 120779)
                else
                  decide (122624 ≤ n ∧ n ≤ 122633))))
          else
            (if n < 127280 then
              (if n < 125184 then
                decide (122635 ≤ n ∧ n ≤ 122654)
              else
                decide (125184 ≤ n ∧ n ≤ 125251))
            else
              (if n < 127312 then
                decide (127280 ≤ n ∧ n ≤ 127305)
              else
                (if n < 127344 then
                  decide (127312 ≤ n ∧ n ≤ 127337)
                else
                  decide (127344 ≤ n ∧ n ≤ 127369)))))))))

/-- The `Case_Ignorable` test of Python's Final_Sigma rule, as range
runs. -/
def pyCaseIgnorable (n : Nat) : Bool :=
  (if n < 11744 then
    (if n < 3542 then
      (if n < 2433 then
        (if n < 1564 then
          (if n < 900 then
            (if n < 173 then
              (if n < 94 then
                (if n < 46 then
                  decide (39 ≤ n ∧ n ≤ 39)
                else
                  (if n < 58 then
                    decide (46 ≤ n ∧ n ≤ 46)
                  else
                    decide (58 ≤ n ∧ n ≤ 58)))
              else
                (if n < 96 then
                  decide (94 ≤ n ∧ n ≤ 94)
                else
                  (if n < 168 then
                    decide (96 ≤ n ∧ n ≤ 96)
                  else
                    decide (168 ≤ n ∧ n ≤ 168))))
            else
              (if n < 183 then
                (if n < 175 then
                  decide (173 ≤ n ∧ n ≤ 173)
                else
                  (if n < 180 then
                    decide (175 ≤ n ∧ n ≤ 175)
                  else
                    decide (180 ≤ n ∧ n ≤ 180)))
              else
                (if n < 884 then
                  (if n < 688 then
                    decide (183 ≤ n ∧ n ≤ 184)
                  else
                    decide (688 ≤ n ∧ n ≤ 879))
                else
                  (if n < 890 then
                    decide (884 ≤ n ∧ n ≤ 885)
                  else
                    decide (890 ≤ n ∧ n ≤ 890)))))
          else
            (if n < 1471 then
              (if n < 1369 then
                (if n < 903 then
                  decide (900 ≤ n ∧ n ≤ 901)
                else
                  (if n < 1155 then
                    decide (903 ≤ n ∧ n ≤ 903)
                  else
                    decide (1155 ≤ n ∧ n ≤ 1161)))
              else
                (if n < 1375 then
                  decide (1369 ≤ n ∧ n ≤ 1369)
                else
                  (if n < 1425 then
                    decide (1375 ≤ n ∧ n ≤ 1375)
                  else
                    decide (1425 ≤ n ∧ n ≤ 1469))))
            else
              (if n < 1479 then
                (if n < 1473 then
                  decide (1471 ≤ n ∧ n ≤ 1471)
                else
                  (if n < 1476 then
                    decide (1473 ≤ n ∧ n ≤ 1474)
                  else
                    decide (1476 ≤ n ∧ n ≤ 1477)))
              else
                (if n < 1536 then
                  (if n < 1524 then
                    decide (1479 ≤ n ∧ n ≤ 1479)
                  else
                    decide (1524 ≤ n ∧ n ≤ 1524))
                else
                  (if n < 1552 then
                    decide (1536 ≤ n ∧ n ≤ 1541)
                  else
                    decide (1552 ≤ n ∧ n ≤ 1562))))))
        else
          (if n < 2045 then
            (if n < 1770 then
              (if n < 1648 then
                (if n < 1600 then
                  decide (1564 ≤ n ∧ n ≤ 1564)
                else
                  (if n < 1611 then
                    decide (1600 ≤ n ∧ n ≤ 1600)
                  else
                    decide (1611 ≤ n ∧ n ≤ 1631)))
              else
                (if n < 1750 then
                  decide (1648 ≤ n ∧ n ≤ 1648)
                else
                  (if n < 1759 then
                    decide (1750 ≤ n ∧ n ≤ 1757)
                  else
                    decide (1759 ≤ n ∧ n ≤ 1768))))
            else
              (if n < 1840 then
                (if n < 1807 then
                  decide (1770 ≤ n ∧ n ≤ 1773)
                else
                  (if n < 1809 then
                    decide (1807 ≤ n ∧ n ≤ 1807)
                  else
                    decide (1809 ≤ n ∧ n ≤ 1809)))
              else
                (if n < 2027 then
                  (if n < 1958 then
                    decide (1840 ≤ n ∧ n ≤ 1866)
                  else
                    decide (1958 ≤ n ∧ n ≤ 1968))
                else
                  (if n < 2042 then
                    decide (2027 ≤ n ∧ n ≤ 2037)
                  else
                    decide (2042 ≤ n ∧ n ≤ 2042)))))
          else
            (if n < 2362 then
              (if n < 2184 then
                (if n < 2070 then
                  decide (2045 ≤ n ∧ n ≤ 2045)
                else
                  (if n < 2137 then
                    decide (2070 ≤ n ∧ n ≤ 2093)
                  else
                    decide (2137 ≤ n ∧ n ≤ 2139)))
              else
                (if n < 2200 then
                  (if n < 2192 then
                    decide (2184 ≤ n ∧ n ≤ 2184)
                  else
                    decide (2192 ≤ n ∧ n ≤ 2193))
                else
                  (if n < 2249 then
                    decide (2200 ≤ n ∧ n ≤ 2207)
                  else
                    decide (2249 ≤ n ∧ n ≤ 2306))))
            else
              (if n < 2381 then
                (if n < 2364 then
                  decide (2362 ≤ n ∧ n ≤ 2362)
                else
                  (if n < 2369 then
                    decide (2364 ≤ n ∧ n ≤ 2364)
                  else
                    decide (2369 ≤ n ∧ n ≤ 2376)))
              else
                (if n < 2402 then
                  (if n < 2385 then
                    decide (2381 ≤ n ∧ n ≤ 2381)
                  else
                    decide (2385 ≤ n ∧ n ≤ 2391))
                else
                  (if n < 2417 then
                    decide (2402 ≤ n ∧ n ≤ 2403)
                  else
                    decide (2417 ≤ n ∧ n ≤ 2417)))))))
      else
        (if n < 2901 then
          (if n < 2677 then
            (if n < 2561 then
              (if n < 2509 then
                (if n < 2492 then
                  decide (2433 ≤ n ∧ n ≤ 2433)
                else
                  (if n < 2497 then
                    decide (2492 ≤ n ∧ n ≤ 2492)
                  else
                    decide (2497 ≤ n ∧ n ≤ 2500)))
              else
                (if n < 2530 then
                  decide (2509 ≤ n ∧ n ≤ 2509)
                else
                  (if n < 2558 then
                    decide (2530 ≤ n ∧ n ≤ 2531)
                  else
                    decide (2558 ≤ n ∧ n ≤ 2558))))
            else
              (if n < 2631 then
                (if n < 2620 then
                  decide (2561 ≤ n ∧ n ≤ 2562)
                else
                  (if n < 2625 then
                    decide (2620 ≤ n ∧ n ≤ 2620)
                  else
                    decide (2625 ≤ n ∧ n ≤ 2626)))
              else
                (if n < 2641 then
                  (if n < 2635 then
                    decide (2631 ≤ n ∧ n ≤ 2632)
                  else
                    decide (2635 ≤ n ∧ n ≤ 2637))
                else
                  (if n < 2672 then
                    decide (2641 ≤ n ∧ n ≤ 2641)
                  else
                    decide (2672 ≤ n ∧ n ≤ 2673)))))
          else
            (if n < 2786 then
              (if n < 2753 then
                (if n < 2689 then
                  decide (2677 ≤ n ∧ n ≤ 2677)
                else
                  (if n < 2748 then
                    decide (2689 ≤ n ∧ n ≤ 2690)
                  else
                    decide (2748 ≤ n ∧ n ≤ 2748)))
              else
                (if n < 2759 then
                  decide (2753 ≤ n ∧ n ≤ 2757)
                else
                  (if n < 2765 then
                    decide (2759 ≤ n ∧ n ≤ 2760)
                  else
                    decide (2765 ≤ n ∧ n ≤ 2765))))
            else
              (if n < 2876 then
                (if n < 2810 then
                  decide (2786 ≤ n ∧ n ≤ 2787)
                else
                  (if n < 2817 then
                    decide (2810 ≤ n ∧ n ≤ 2815)
                  else
                    decide (2817 ≤ n ∧ n ≤ 2817)))
              else
                (if n < 2881 then
                  (if n < 2879 then
                    decide (2876 ≤ n ∧ n ≤ 2876)
                  else
                    decide (2879 ≤ n ∧ n ≤ 2879))
                else
                  (if n < 2893 then
                    decide (2881 ≤ n ∧ n ≤ 2884)
                  else
                    decide (2893 ≤ n ∧ n ≤ 2893))))))
        else
          (if n < 3201 then
            (if n < 3076 then
              (if n < 3008 then
                (if n < 2914 then
                  decide (2901 ≤ n ∧ n ≤ 2902)
                else
                  (if n < 2946 then
                    decide (2914 ≤ n ∧ n ≤ 2915)
                  else
                    decide (2946 ≤ n ∧ n ≤ 2946)))
              else
                (if n < 3021 then
                  decide (3008 ≤ n ∧ n ≤ 3008)
                else
                  (if n < 3072 then
                    decide (3021 ≤ n ∧ n ≤ 3021)
                  else
                    decide (3072 ≤ n ∧ n ≤ 3072))))
            else
              (if n < 3142 then
                (if n < 3132 then
                  decide (3076 ≤ n ∧ n ≤ 3076)
                else
                  (if n < 3134 then
                    decide (3132 ≤ n ∧ n ≤ 3132)
                  else
                    decide (3134 ≤ n ∧ n ≤ 3136)))
              else
                (if n < 3157 then
                  (if n < 3146 then
                    decide (3142 ≤ n ∧ n ≤ 3144)
                  else
                    decide (3146 ≤ n ∧ n ≤ 3149))
                else
                  (if n < 3170 then
                    decide (3157 ≤ n ∧ n ≤ 3158)
                  else
                    decide (3170 ≤ n ∧ n ≤ 3171)))))
          else
            (if n < 3387 then
              (if n < 3270 then
                (if n < 3260 then
                  decide (3201 ≤ n ∧ n ≤ 3201)
                else
                  (if n < 3263 then
                    decide (3260 ≤ n ∧ n ≤ 3260)
                  else
                    decide (3263 ≤ n ∧ n ≤ 3263)))
              else
                (if n < 3298 then
                  (if n < 3276 then
                    decide (3270 ≤ n ∧ n ≤ 3270)
                  else
                    decide (3276 ≤ n ∧ n ≤ 3277))
                else
                  (if n < 3328 then
                    decide (3298 ≤ n ∧ n ≤ 3299)
                  else
                    decide (3328 ≤ n ∧ n ≤ 3329))))
            else
              (if n < 3426 then
                (if n < 3393 then
                  decide (3387 ≤ n ∧ n ≤ 3388)
                else
                  (if n < 3405 then
                    decide (3393 ≤ n ∧ n ≤ 3396)
                  else
                    decide (3405 ≤ n ∧ n ≤ 3405)))
              else
                (if n < 3530 then
                  (if n < 3457 then
                    decide (3426 ≤ n ∧ n ≤ 3427)
                  else
                    decide (3457 ≤ n ∧ n ≤ 3457))
                else
                  (if n < 3538 then
                    decide (3530 ≤ n ∧ n ≤ 3530)
                  else
                    decide (3538 ≤ n ∧ n ≤ 3540))))))))
    else
      (if n < 6752 then
        (if n < 4229 then
          (if n < 3968 then
            (if n < 3782 then
              (if n < 3654 then
                (if n < 3633 then
                  decide (3542 ≤ n ∧ n ≤ 3542)
                else
                  (if n < 3636 then
                    decide (3633 ≤ n ∧ n ≤ 3633)
                  else
                    decide (3636 ≤ n ∧ n ≤ 3642)))
              else
                (if n < 3761 then
                  decide (3654 ≤ n ∧ n ≤ 3662)
                else
                  (if n < 3764 then
                    decide (3761 ≤ n ∧ n ≤ 3761)
                  else
                    decide (3764 ≤ n ∧ n ≤ 3772))))
            else
              (if n < 3893 then
                (if n < 3784 then
                  decide (3782 ≤ n ∧ n ≤ 3782)
                else
                  (if n < 3864 then
                    decide (3784 ≤ n ∧ n ≤ 3789)
                  else
                    decide (3864 ≤ n ∧ n ≤ 3865)))
              else
                (if n < 3897 then
                  (if n < 3895 then
                    decide (3893 ≤ n ∧ n ≤ 3893)
                  else
                    decide (3895 ≤ n ∧ n ≤ 3895))
                else
                  (if n < 3953 then
                    decide (3897 ≤ n ∧ n ≤ 3897)
                  else
                    decide (3953 ≤ n ∧ n ≤ 3966)))))
          else
            (if n < 4146 then
              (if n < 3993 then
                (if n < 3974 then
                  decide (3968 ≤ n ∧ n ≤ 3972)
                else
                  (if n < 3981 then
                    decide (3974 ≤ n ∧ n ≤ 3975)
                  else
                    decide (3981 ≤ n ∧ n ≤ 3991)))
              else
                (if n < 4038 then
                  decide (3993 ≤ n ∧ n ≤ 4028)
                else
                  (if n < 4141 then
                    decide (4038 ≤ n ∧ n ≤ 4038)
                  else
                    decide (4141 ≤ n ∧ n ≤ 4144))))
            else
              (if n < 4184 then
                (if n < 4153 then
                  decide (4146 ≤ n ∧ n ≤ 4151)
                else
                  (if n < 4157 then
                    decide (4153 ≤ n ∧ n ≤ 4154)
                  else
                    decide (4157 ≤ n ∧ n ≤ 4158)))
              else
                (if n < 4209 then
                  (if n < 4190 then
                    decide (4184 ≤ n ∧ n ≤ 4185)
                  else
                    decide (4190 ≤ n ∧ n ≤ 4192))
                else
                  (if n < 4226 then
                    decide (4209 ≤ n ∧ n ≤ 4212)
                  else
                    decide (4226 ≤ n ∧ n ≤ 4226))))))
        else
          (if n < 6103 then
            (if n < 5938 then
              (if n < 4348 then
                (if n < 4237 then
                  decide (4229 ≤ n ∧ n ≤ 4230)
                else
                  (if n < 4253 then
                    decide (4237 ≤ n ∧ n ≤ 4237)
                  else
                    decide (4253 ≤ n ∧ n ≤ 4253)))
              else
                (if n < 4957 then
                  decide (4348 ≤ n ∧ n ≤ 4348)
                else
                  (if n < 5906 then
                    decide (4957 ≤ n ∧ n ≤ 4959)
                  else
                    decide (5906 ≤ n ∧ n ≤ 5908))))
            else
              (if n < 6068 then
                (if n < 5970 then
                  decide (5938 ≤ n ∧ n ≤ 5939)
                else
                  (if n < 6002 then
                    decide (5970 ≤ n ∧ n ≤ 5971)
                  else
                    decide (6002 ≤ n ∧ n ≤ 6003)))
              else
                (if n < 6086 then
                  (if n < 6071 then
                    decide (6068 ≤ n ∧ n ≤ 6069)
                  else
                    decide (6071 ≤ n ∧ n ≤ 6077))
                else
                  (if n < 6089 then
                    decide (6086 ≤ n ∧ n ≤ 6086)
                  else
                    decide (6089 ≤ n ∧ n ≤ 6099)))))
          else
            (if n < 6439 then
              (if n < 6211 then
                (if n < 6109 then
                  decide (6103 ≤ n ∧ n ≤ 6103)
                else
                  (if n < 6155 then
                    decide (6109 ≤ n ∧ n ≤ 6109)
                  else
                    decide (6155 ≤ n ∧ n ≤ 6159)))
              else
                (if n < 6313 then
                  (if n < 6277 then
                    decide (6211 ≤ n ∧ n ≤ 6211)
                  else
                    decide (6277 ≤ n ∧ n ≤ 6278))
                else
                  (if n < 6432 then
                    decide (6313 ≤ n ∧ n ≤ 6313)
                  else
                    decide (6432 ≤ n ∧ n ≤ 6434))))
            else
              (if n < 6679 then
                (if n < 6450 then
                  decide (6439 ≤ n ∧ n ≤ 6440)
                else
                  (if n < 6457 then
                    decide (6450 ≤ n ∧ n ≤ 6450)
                  else
                    decide (6457 ≤ n ∧ n ≤ 6459)))
              else
                (if n < 6742 then
                  (if n < 6683 then
                    decide (6679 ≤ n ∧ n ≤ 6680)
                  else
                    decide (6683 ≤ n ∧ n ≤ 6683))
                else
                  (if n < 6744 then
                    decide (6742 ≤ n ∧ n ≤ 6742)
                  else
                    decide (6744 ≤ n ∧ n ≤ 6750)))))))
      else
        (if n < 7405 then
          (if n < 7040 then
            (if n < 6832 then
              (if n < 6771 then
                (if n < 6754 then
                  decide (6752 ≤ n ∧ n ≤ 6752)
                else
                  (if n < 6757 then
                    decide (6754 ≤ n ∧ n ≤ 6754)
                  else
                    decide (6757 ≤ n ∧ n ≤ 6764)))
              else
                (if n < 6783 then
                  decide (6771 ≤ n ∧ n ≤ 6780)
                else
                  (if n < 6823 then
                    decide (6783 ≤ n ∧ n ≤ 6783)
                  else
                    decide (6823 ≤ n ∧ n ≤ 6823))))
            else
              (if n < 6966 then
                (if n < 6912 then
                  decide (6832 ≤ n ∧ n ≤ 6862)
                else
                  (if n < 6964 then
                    decide (6912 ≤ n ∧ n ≤ 6915)
                  else
                    decide (6964 ≤ n ∧ n ≤ 6964)))
              else
                (if n < 6978 then
                  (if n < 6972 then
                    decide (6966 ≤ n ∧ n ≤ 6970)
                  else
                    decide (6972 ≤ n ∧ n ≤ 6972))
                else
                  (if n < 7019 then
                    decide (6978 ≤ n ∧ n ≤ 6978)
                  else
                    decide (7019 ≤ n ∧ n ≤ 7027)))))
          else
            (if n < 7151 then
              (if n < 7083 then
                (if n < 7074 then
                  decide (7040 ≤ n ∧ n ≤ 7041)
                else
                  (if n < 7080 then
                    decide (7074 ≤ n ∧ n ≤ 7077)
                  else
                    decide (7080 ≤ n ∧ n ≤ 7081)))
              else
                (if n < 7144 then
                  (if n < 7142 then
                    decide (7083 ≤ n ∧ n ≤ 7085)
                  else
                    decide (7142 ≤ n ∧ n ≤ 7142))
                else
                  (if n < 7149 then
                    decide (7144 ≤ n ∧ n ≤ 7145)
                  else
                    decide (7149 ≤ n ∧ n ≤ 7149))))
            else
              (if n < 7288 then
                (if n < 7212 then
                  decide (7151 ≤ n ∧ n ≤ 7153)
                else
                  (if n < 7222 then
                    decide (7212 ≤ n ∧ n ≤ 7219)
                  else
                    decide (7222 ≤ n ∧ n ≤ 7223)))
              else
                (if n < 7380 then
                  (if n < 7376 then
                    decide (7288 ≤ n ∧ n ≤ 7293)
                  else
                    decide (7376 ≤ n ∧ n ≤ 7378))
                else
                  (if n < 7394 then
                    decide (7380 ≤ n ∧ n ≤ 7392)
                  else
                    decide (7394 ≤ n ∧ n ≤ 7400))))))
        else
          (if n < 8216 then
            (if n < 8125 then
              (if n < 7468 then
                (if n < 7412 then
                  decide (7405 ≤ n ∧ n ≤ 7405)
                else
                  (if n < 7416 then
                    decide (7412 ≤ n ∧ n ≤ 7412)
                  else
                    decide (7416 ≤ n ∧ n ≤ 7417)))
              else
                (if n < 7544 then
                  decide (7468 ≤ n ∧ n ≤ 7530)
                else
                  (if n < 7579 then
                    decide (7544 ≤ n ∧ n ≤ 7544)
                  else
                    decide (7579 ≤ n ∧ n ≤ 7679))))
            else
              (if n < 8157 then
                (if n < 8127 then
                  decide (8125 ≤ n ∧ n ≤ 8125)
                else
                  (if n < 8141 then
                    decide (8127 ≤ n ∧ n ≤ 8129)
                  else
                    decide (8141 ≤ n ∧ n ≤ 8143)))
              else
                (if n < 8189 then
                  (if n < 8173 then
                    decide (8157 ≤ n ∧ n ≤ 8159)
                  else
                    decide (8173 ≤ n ∧ n ≤ 8175))
                else
                  (if n < 8203 then
                    decide (8189 ≤ n ∧ n ≤ 8190)
                  else
                    decide (8203 ≤ n ∧ n ≤ 8207)))))
          else
            (if n < 8319 then
              (if n < 8234 then
                (if n < 8228 then
                  decide (8216 ≤ n ∧ n ≤ 8217)
                else
                  (if n < 8231 then
                    decide (8228 ≤ n ∧ n ≤ 8228)
                  else
                    decide (8231 ≤ n ∧ n ≤ 8231)))
              else
                (if n < 8294 then
                  (if n < 8288 then
                    decide (8234 ≤ n ∧ n ≤ 8238)
                  else
                    decide (8288 ≤ n ∧ n ≤ 8292))
                else
                  (if n < 8305 then
                    decide (8294 ≤ n ∧ n ≤ 8303)
                  else
                    decide (8305 ≤ n ∧ n ≤ 8305))))
            else
              (if n < 11388 then
                (if n < 8336 then
                  decide (8319 ≤ n ∧ n ≤ 8319)
                else
                  (if n < 8400 then
                    decide (8336 ≤ n ∧ n ≤ 8348)
                  else
                    decide (8400 ≤ n ∧ n ≤ 8432)))
              else
                (if n < 11631 then
                  (if n < 11503 then
                    decide (11388 ≤ n ∧ n ≤ 11389)
                  else
                    decide (11503 ≤ n ∧ n ≤ 11505))
                else
                  (if n < 11647 then
                    decide (11631 ≤ n ∧ n ≤ 11631)
                  else
                    decide (11647 ≤ n ∧ n ≤ 11647)))))))))
  else
    (if n < 70089 then
      (if n < 43867 then
        (if n < 43204 then
          (if n < 42623 then
            (if n < 12441 then
              (if n < 12330 then
                (if n < 11823 then
                  decide (11744 ≤ n ∧ n ≤ 11775)
                else
                  (if n < 12293 then
                    decide (11823 ≤ n ∧ n ≤ 11823)
                  else
                    decide (12293 ≤ n ∧ n ≤ 12293)))
              else
                (if n < 12337 then
                  decide (12330 ≤ n ∧ n ≤ 12333)
                else
                  (if n < 12347 then
                    decide (12337 ≤ n ∧ n ≤ 12341)
                  else
                    decide (12347 ≤ n ∧ n ≤ 12347))))
            else
              (if n < 42232 then
                (if n < 12540 then
                  decide (12441 ≤ n ∧ n ≤ 12446)
                else
                  (if n < 40981 then
                    decide (12540 ≤ n ∧ n ≤ 12542)
                  else
                    decide (40981 ≤ n ∧ n ≤ 40981)))
              else
                (if n < 42607 then
                  (if n < 42508 then
                    decide (42232 ≤ n ∧ n ≤ 42237)
                  else
                    decide (42508 ≤ n ∧ n ≤ 42508))
                else
                  (if n < 42612 then
                    decide (42607 ≤ n ∧ n ≤ 42610)
                  else
                    decide (42612 ≤ n ∧ n ≤ 42621)))))
          else
            (if n < 42994 then
              (if n < 42752 then
                (if n < 42652 then
                  decide (42623 ≤ n ∧ n ≤ 42623)
                else
                  (if n < 42736 then
                    decide (42652 ≤ n ∧ n ≤ 42655)
                  else
                    decide (42736 ≤ n ∧ n ≤ 42737)))
              else
                (if n < 42864 then
                  decide (42752 ≤ n ∧ n ≤ 42785)
                else
                  (if n < 42888 then
                    decide (42864 ≤ n ∧ n ≤ 42864)
                  else
                    decide (42888 ≤ n ∧ n ≤ 42890))))
            else
              (if n < 43014 then
                (if n < 43000 then
                  decide (42994 ≤ n ∧ n ≤ 42996)
                else
                  (if n < 43010 then
                    decide (43000 ≤ n ∧ n ≤ 43001)
                  else
                    decide (43010 ≤ n ∧ n ≤ 43010)))
              else
                (if n < 43045 then
                  (if n < 43019 then
                    decide (43014 ≤ n ∧ n ≤ 43014)
                  else
                    decide (43019 ≤ n ∧ n ≤ 43019))
                else
                  (if n < 43052 then
                    decide (43045 ≤ n ∧ n ≤ 43046)
                  else
                    decide (43052 ≤ n ∧ n ≤ 43052))))))
        else
          (if n < 43573 then
            (if n < 43443 then
              (if n < 43302 then
                (if n < 43232 then
                  decide (43204 ≤ n ∧ n ≤ 43205)
                else
                  (if n < 43263 then
                    decide (43232 ≤ n ∧ n ≤ 43249)
                  else
                    decide (43263 ≤ n ∧ n ≤ 43263)))
              else
                (if n < 43335 then
                  decide (43302 ≤ n ∧ n ≤ 43309)
                else
                  (if n < 43392 then
                    decide (43335 ≤ n ∧ n ≤ 43345)
                  else
                    decide (43392 ≤ n ∧ n ≤ 43394))))
            else
              (if n < 43471 then
                (if n < 43446 then
                  decide (43443 ≤ n ∧ n ≤ 43443)
                else
                  (if n < 43452 then
                    decide (43446 ≤ n ∧ n ≤ 43449)
                  else
                    decide (43452 ≤ n ∧ n ≤ 43453)))
              else
                (if n < 43561 then
                  (if n < 43493 then
                    decide (43471 ≤ n ∧ n ≤ 43471)
                  else
                    decide (43493 ≤ n ∧ n ≤ 43494))
                else
                  (if n < 43569 then
                    decide (43561 ≤ n ∧ n ≤ 43566)
                  else
                    decide (43569 ≤ n ∧ n ≤ 43570)))))
          else
            (if n < 43703 then
              (if n < 43632 then
                (if n < 43587 then
                  decide (43573 ≤ n ∧ n ≤ 43574)
                else
                  (if n < 43596 then
                    decide (43587 ≤ n ∧ n ≤ 43587)
                  else
                    decide (43596 ≤ n ∧ n ≤ 43596)))
              else
                (if n < 43696 then
                  (if n < 43644 then
                    decide (43632 ≤ n ∧ n ≤ 43632)
                  else
                    decide (43644 ≤ n ∧ n ≤ 43644))
                else
                  (if n < 43698 then
                    decide (43696 ≤ n ∧ n ≤ 43696)
                  else
                    decide (43698 ≤ n ∧ n ≤ 43700))))
            else
              (if n < 43741 then
                (if n < 43710 then
                  decide (43703 ≤ n ∧ n ≤ 43704)
                else
                  (if n < 43713 then
                    decide (43710 ≤ n ∧ n ≤ 43711)
                  else
                    decide (43713 ≤ n ∧ n ≤ 43713)))
              else
                (if n < 43763 then
                  (if n < 43756 then
                    decide (43741 ≤ n ∧ n ≤ 43741)
                  else
                    decide (43756 ≤ n ∧ n ≤ 43757))
                else
                  (if n < 43766 then
                    decide (43763 ≤ n ∧ n ≤ 43764)
                  else
                    decide (43766 ≤ n ∧ n ≤ 43766)))))))
      else
        (if n < 67506 then
          (if n < 65287 then
            (if n < 64434 then
              (if n < 44008 then
                (if n < 43881 then
                  decide (43867 ≤ n ∧ n ≤ 43871)
                else
                  (if n < 44005 then
                    decide (43881 ≤ n ∧ n ≤ 43883)
                  else
                    decide (44005 ≤ n ∧ n ≤ 44005)))
              else
                (if n < 44013 then
                  decide (44008 ≤ n ∧ n ≤ 44008)
                else
                  (if n < 64286 then
                    decide (44013 ≤ n ∧ n ≤ 44013)
                  else
                    decide (64286 ≤ n ∧ n ≤ 64286))))
            else
              (if n < 65056 then
                (if n < 65024 then
                  decide (64434 ≤ n ∧ n ≤ 64450)
                else
                  (if n < 65043 then
                    decide (65024 ≤ n ∧ n ≤ 65039)
                  else
                    decide (65043 ≤ n ∧ n ≤ 65043)))
              else
                (if n < 65109 then
                  (if n < 65106 then
                    decide (65056 ≤ n ∧ n ≤ 65071)
                  else
                    decide (65106 ≤ n ∧ n ≤ 65106))
                else
                  (if n < 65279 then
                    decide (65109 ≤ n ∧ n ≤ 65109)
                  else
                    decide (65279 ≤ n ∧ n ≤ 65279)))))
          else
            (if n < 65507 then
              (if n < 65342 then
                (if n < 65294 then
                  decide (65287 ≤ n ∧ n ≤ 65287)
                else
                  (if n < 65306 then
                    decide (65294 ≤ n ∧ n ≤ 65294)
                  else
                    decide (65306 ≤ n ∧ n ≤ 65306)))
              else
                (if n < 65392 then
                  (if n < 65344 then
                    decide (65342 ≤ n ∧ n ≤ 65342)
                  else
                    decide (65344 ≤ n ∧ n ≤ 65344))
                else
                  (if n < 65438 then
                    decide (65392 ≤ n ∧ n ≤ 65392)
                  else
                    decide (65438 ≤ n ∧ n ≤ 65439))))
            else
              (if n < 66272 then
                (if n < 65529 then
                  decide (65507 ≤ n ∧ n ≤ 65507)
                else
                  (if n < 66045 then
                    decide (65529 ≤ n ∧ n ≤ 65531)
                  else
                    decide (66045 ≤ n ∧ n ≤ 66045)))
              else
                (if n < 67456 then
                  (if n < 66422 then
                    decide (66272 ≤ n ∧ n ≤ 66272)
                  else
                    decide (66422 ≤ n ∧ n ≤ 66426))
                else
                  (if n < 67463 then
                    decide (67456 ≤ n ∧ n ≤ 67461)
                  else
                    decide (67463 ≤ n ∧ n ≤ 67504))))))
        else
          (if n < 69744 then
            (if n < 68325 then
              (if n < 68108 then
                (if n < 68097 then
                  decide (67506 ≤ n ∧ n ≤ 67514)
                else
                  (if n < 68101 then
                    decide (68097 ≤ n ∧ n ≤ 68099)
                  else
                    decide (68101 ≤ n ∧ n ≤ 68102)))
              else
                (if n < 68152 then
                  decide (68108 ≤ n ∧ n ≤ 68111)
                else
                  (if n < 68159 then
                    decide (68152 ≤ n ∧ n ≤ 68154)
                  else
                    decide (68159 ≤ n ∧ n ≤ 68159))))
            else
              (if n < 69446 then
                (if n < 68900 then
                  decide (68325 ≤ n ∧ n ≤ 68326)
                else
                  (if n < 69291 then
                    decide (68900 ≤ n ∧ n ≤ 68903)
                  else
                    decide (69291 ≤ n ∧ n ≤ 69292)))
              else
                (if n < 69633 then
                  (if n < 69506 then
                    decide (69446 ≤ n ∧ n ≤ 69456)
                  else
                    decide (69506 ≤ n ∧ n ≤ 69509))
                else
                  (if n < 69688 then
                    decide (69633 ≤ n ∧ n ≤ 69633)
                  else
                    decide (69688 ≤ n ∧ n ≤ 69702)))))
          else
            (if n < 69837 then
              (if n < 69811 then
                (if n < 69747 then
                  decide (69744 ≤ n ∧ n ≤ 69744)
                else
                  (if n < 69759 then
                    decide (69747 ≤ n ∧ n ≤ 69748)
                  else
                    decide (69759 ≤ n ∧ n ≤ 69761)))
              else
                (if n < 69821 then
                  (if n < 69817 then
                    decide (69811 ≤ n ∧ n ≤ 69814)
                  else
                    decide (69817 ≤ n ∧ n ≤ 69818))
                else
                  (if n < 69826 then
                    decide (69821 ≤ n ∧ n ≤ 69821)
                  else
                    decide (69826 ≤ n ∧ n ≤ 69826))))
            else
              (if n < 69933 then
                (if n < 69888 then
                  decide (69837 ≤ n ∧ n ≤ 69837)
                else
                  (if n < 69927 then
                    decide (69888 ≤ n ∧ n ≤ 69890)
                  else
                    decide (69927 ≤ n ∧ n ≤ 69931)))
              else
                (if n < 70016 then
                  (if n < 70003 then
                    decide (69933 ≤ n ∧ n ≤ 69940)
                  else
                    decide (70003 ≤ n ∧ n ≤ 70003))
                else
                  (if n < 70070 then
                    decide (70016 ≤ n ∧ n ≤ 70017)
                  else
                    decide (70070 ≤ n ∧ n ≤ 70078))))))))
    else
      (if n < 72767 then
        (if n < 71229 then
          (if n < 70712 then
            (if n < 70367 then
              (if n < 70196 then
                (if n < 70095 then
                  decide (70089 ≤ n ∧ n ≤ 70092)
                else
                  (if n < 70191 then
                    decide (70095 ≤ n ∧ n ≤ 70095)
                  else
                    decide (70191 ≤ n ∧ n ≤ 70193)))
              else
                (if n < 70198 then
                  decide (70196 ≤ n ∧ n ≤ 70196)
                else
                  (if n < 70206 then
                    decide (70198 ≤ n ∧ n ≤ 70199)
                  else
                    decide (70206 ≤ n ∧ n ≤ 70206))))
            else
              (if n < 70459 then
                (if n < 70371 then
                  decide (70367 ≤ n ∧ n ≤ 70367)
                else
                  (if n < 70400 then
                    decide (70371 ≤ n ∧ n ≤ 70378)
                  else
                    decide (70400 ≤ n ∧ n ≤ 70401)))
              else
                (if n < 70502 then
                  (if n < 70464 then
                    decide (70459 ≤ n ∧ n ≤ 70460)
                  else
                    decide (70464 ≤ n ∧ n ≤ 70464))
                else
                  (if n < 70512 then
                    decide (70502 ≤ n ∧ n ≤ 70508)
                  else
                    decide (70512 ≤ n ∧ n ≤ 70516)))))
          else
            (if n < 70847 then
              (if n < 70750 then
                (if n < 70722 then
                  decide (70712 ≤ n ∧ n ≤ 70719)
                else
                  (if n < 70726 then
                    decide (70722 ≤ n ∧ n ≤ 70724)
                  else
                    decide (70726 ≤ n ∧ n ≤ 70726)))
              else
                (if n < 70835 then
                  decide (70750 ≤ n ∧ n ≤ 70750)
                else
                  (if n < 70842 then
                    decide (70835 ≤ n ∧ n ≤ 70840)
                  else
                    decide (70842 ≤ n ∧ n ≤ 70842))))
            else
              (if n < 71100 then
                (if n < 70850 then
                  decide (70847 ≤ n ∧ n ≤ 70848)
                else
                  (if n < 71090 then
                    decide (70850 ≤ n ∧ n ≤ 70851)
                  else
                    decide (71090 ≤ n ∧ n ≤ 71093)))
              else
                (if n < 71132 then
                  (if n < 71103 then
                    decide (71100 ≤ n ∧ n ≤ 71101)
                  else
                    decide (71103 ≤ n ∧ n ≤ 71104))
                else
                  (if n < 71219 then
                    decide (71132 ≤ n ∧ n ≤ 71133)
                  else
                    decide (71219 ≤ n ∧ n ≤ 71226))))))
        else
          (if n < 72003 then
            (if n < 71453 then
              (if n < 71341 then
                (if n < 71231 then
                  decide (71229 ≤ n ∧ n ≤ 71229)
                else
                  (if n < 71339 then
                    decide (71231 ≤ n ∧ n ≤ 71232)
                  else
                    decide (71339 ≤ n ∧ n ≤ 71339)))
              else
                (if n < 71344 then
                  decide (71341 ≤ n ∧ n ≤ 71341)
                else
                  (if n < 71351 then
                    decide (71344 ≤ n ∧ n ≤ 71349)
                  else
                    decide (71351 ≤ n ∧ n ≤ 71351))))
            else
              (if n < 71727 then
                (if n < 71458 then
                  decide (71453 ≤ n ∧ n ≤ 71455)
                else
                  (if n < 71463 then
                    decide (71458 ≤ n ∧ n ≤ 71461)
                  else
                    decide (71463 ≤ n ∧ n ≤ 71467)))
              else
                (if n < 71995 then
                  (if n < 71737 then
                    decide (71727 ≤ n ∧ n ≤ 71735)
                  else
                    decide (71737 ≤ n ∧ n ≤ 71738))
                else
                  (if n < 71998 then
                    decide (71995 ≤ n ∧ n ≤ 71996)
                  else
                    decide (71998 ≤ n ∧ n ≤ 71998)))))
          else
            (if n < 72263 then
              (if n < 72160 then
                (if n < 72148 then
                  decide (72003 ≤ n ∧ n ≤ 72003)
                else
                  (if n < 72154 then
                    decide (72148 ≤ n ∧ n ≤ 72151)
                  else
                    decide (72154 ≤ n ∧ n ≤ 72155)))
              else
                (if n < 72243 then
                  (if n < 72193 then
                    decide (72160 ≤ n ∧ n ≤ 72160)
                  else
                    decide (72193 ≤ n ∧ n ≤ 72202))
                else
                  (if n < 72251 then
                    decide (72243 ≤ n ∧ n ≤ 72248)
                  else
                    decide (72251 ≤ n ∧ n ≤ 72254))))
            else
              (if n < 72330 then
                (if n < 72273 then
                  decide (72263 ≤ n ∧ n ≤ 72263)
                else
                  (if n < 72281 then
                    decide (72273 ≤ n ∧ n ≤ 72278)
                  else
                    decide (72281 ≤ n ∧ n ≤ 72283)))
              else
                (if n < 72752 then
                  (if n < 72344 then
                    decide (72330 ≤ n ∧ n ≤ 72342)
                  else
                    decide (72344 ≤ n ∧ n ≤ 72345))
                else
                  (if n < 72760 then
                    decide (72752 ≤ n ∧ n ≤ 72758)
                  else
                    decide (72760 ≤ n ∧ n ≤ 72765)))))))
      else
        (if n < 118528 then
          (if n < 73459 then
            (if n < 73018 then
              (if n < 72882 then
                (if n < 72850 then
                  decide (72767 ≤ n ∧ n ≤ 72767)
                else
                  (if n < 72874 then
                    decide (72850 ≤ n ∧ n ≤ 72871)
                  else
                    decide (72874 ≤ n ∧ n ≤ 72880)))
              else
                (if n < 72885 then
                  decide (72882 ≤ n ∧ n ≤ 72883)
                else
                  (if n < 73009 then
                    decide (72885 ≤ n ∧ n ≤ 72886)
                  else
                    decide (73009 ≤ n ∧ n ≤ 73014))))
            else
              (if n < 73031 then
                (if n < 73020 then
                  decide (73018 ≤ n ∧ n ≤ 73018)
                else
                  (if n < 73023 then
                    decide (73020 ≤ n ∧ n ≤ 73021)
                  else
                    decide (73023 ≤ n ∧ n ≤ 73029)))
              else
                (if n < 73109 then
                  (if n < 73104 then
                    decide (73031 ≤ n ∧ n ≤ 73031)
                  else
                    decide (73104 ≤ n ∧ n ≤ 73105))
                else
                  (if n < 73111 then
                    decide (73109 ≤ n ∧ n ≤ 73109)
                  else
                    decide (73111 ≤ n ∧ n ≤ 73111)))))
          else
            (if n < 94176 then
              (if n < 92976 then
                (if n < 78896 then
                  decide (73459 ≤ n ∧ n ≤ 73460)
                else
                  (if n < 92912 then
                    decide (78896 ≤ n ∧ n ≤ 78904)
                  else
                    decide (92912 ≤ n ∧ n ≤ 92916)))
              else
                (if n < 94031 then
                  (if n < 92992 then
                    decide (92976 ≤ n ∧ n ≤ 92982)
                  else
                    decide (92992 ≤ n ∧ n ≤ 92995))
                else
                  (if n < 94095 then
                    decide (94031 ≤ n ∧ n ≤ 94031)
                  else
                    decide (94095 ≤ n ∧ n ≤ 94111))))
            else
              (if n < 110581 then
                (if n < 94179 then
                  decide (94176 ≤ n ∧ n ≤ 94177)
                else
                  (if n < 110576 then
                    decide (94179 ≤ n ∧ n ≤ 94180)
                  else
                    decide (110576 ≤ n ∧ n ≤ 110579)))
              else
                (if n < 113821 then
                  (if n < 110589 then
                    decide (110581 ≤ n ∧ n ≤ 110587)
                  else
                    decide (110589 ≤ n ∧ n ≤ 110590))
                else
                  (if n < 113824 then
                    decide (113821 ≤ n ∧ n ≤ 113822)
                  else
                    decide (113824 ≤ n ∧ n ≤ 113827))))))
        else
          (if n < 122880 then
            (if n < 119362 then
              (if n < 119155 then
                (if n < 118576 then
                  decide (118528 ≤ n ∧ n ≤ 118573)
                else
                  (if n < 119143 then
                    decide (118576 ≤ n ∧ n ≤ 118598)
                  else
                    decide (119143 ≤ n ∧ n ≤ 119145)))
              else
                (if n < 119173 then
                  decide (119155 ≤ n ∧ n ≤ 119170)
                else
                  (if n < 119210 then
                    decide (119173 ≤ n ∧ n ≤ 119179)
                  else
                    decide (119210 ≤ n ∧ n ≤ 119213))))
            else
              (if n < 121461 then
                (if n < 121344 then
                  decide (119362 ≤ n ∧ n ≤ 119364)
                else
                  (if n < 121403 then
                    decide (121344 ≤ n ∧ n ≤ 121398)
                  else
                    decide (121403 ≤ n ∧ n ≤ 121452)))
              else
                (if n < 121499 then
                  (if n < 121476 then
                    decide (121461 ≤ n ∧ n ≤ 121461)
                  else
                    decide (121476 ≤ n ∧ n ≤ 121476))
                else
                  (if n < 121505 then
                    decide (121499 ≤ n ∧ n ≤ 121503)
                  else
                    decide (121505 ≤ n ∧ n ≤ 121519)))))
          else
            (if n < 123628 then
              (if n < 122915 then
                (if n < 122888 then
                  decide (122880 ≤ n ∧ n ≤ 122886)
                else
                  (if n < 122907 then
                    decide (122888 ≤ n ∧ n ≤ 122904)
                  else
                    decide (122907 ≤ n ∧ n ≤ 122913)))
              else
                (if n < 123184 then
                  (if n < 122918 then
                    decide (122915 ≤ n ∧ n ≤ 122916)
                  else
                    decide (122918 ≤ n ∧ n ≤ 122922))
                else
                  (if n < 123566 then
                    decide (123184 ≤ n ∧ n ≤ 123197)
                  else
                    decide (123566 ≤ n ∧ n ≤ 123566))))
            else
              (if n < 127995 then
                (if n < 125136 then
                  decide (123628 ≤ n ∧ n ≤ 123631)
                else
                  (if n < 125252 then
                    decide (125136 ≤ n ∧ n ≤ 125142)
                  else
                    decide (125252 ≤ n ∧ n ≤ 125259)))
              else
                (if n < 917536 then
                  (if n < 917505 then
                    decide (127995 ≤ n ∧ n ≤ 127999)
                  else
                    decide (917505 ≤ n ∧ n ≤ 917505))
                else
                  (if n < 917760 then
                    decide (917536 ≤ n ∧ n ≤ 917631)
                  else
                    decide (917760 ≤ n ∧ n ≤ 917999))))))))))

/-- Forward context of the Final_Sigma rule: the first non-case-ignorable
character that follows, if any, is cased. -/
def pyFollowedByCased : List Char → Bool
  | [] => false
  | c :: rest =>
      if pyCaseIgnorable c.toNat then pyFollowedByCased rest else pyCased c.toNat

/-- Python `str.lower()` over the character list.  The Bool argument is the
backward context of the Final_Sigma rule: the nearest preceding
non-case-ignorable character exists and is cased.  U+03A3 lowers to the
final sigma U+03C2 exactly in that context when not followed by a cased
character; U+0130 expands to U+0069 followed by U+0307; every other
character goes through the one-to-one table `pyLowerMap`. -/
def pyLowerChars : Bool → List Char → List Char
  | _, [] => []
  | prevCased, c :: rest =>
      let tail := pyLowerChars
        (if pyCaseIgnorable c.toNat then prevCased else pyCased c.toNat) rest
      if c.toNat = 931 then
        (if prevCased && !(pyFollowedByCased rest) then Char.ofNat 962
         else Char.ofNat 963) :: tail
      else if c.toNat = 304 then Char.ofNat 105 :: Char.ofNat 775 :: tail
      else Char.ofNat (pyLowerMap c.toNat) :: tail

/-- Python `str.lower()`: the full Unicode lowercase transformation of
CPython (one-to-one table, the U+0130 expansion, and the Final_Sigma
context rule), on strings of Unicode scalar values. -/
def pyLower (s : String) : String := ⟨pyLowerChars false s.data⟩

/-- The match test of `search_books`: the lowercased string form of the
attribute equals the lowercased search value. -/
def matchesKey (b : Book) (key value : String) : Bool :=
  pyLower (fieldStr b key) == pyLower value

/-- `Library.search_books`: reject keys outside
`["title", "author", "year", "status"]` without scanning; otherwise filter
the catalog in order by the case-insensitive exact match. -/
def search_books (lib : Library) (key value : String) : SearchResult :=
  if key = "title" ∨ key = "author" ∨ key = "year" ∨ key = "status" then
    .results (lib.books.filter (fun b => matchesKey b key value))
  else .invalidField

/-- One store operation issued by the CLI loop. -/
inductive LibOp where
  | add : String → String → Int → LibOp
  | remove : Int → LibOp
  | update : Int → String → LibOp
deriving DecidableEq

/-- Apply one operation; the second component lists the ids assigned by this
operation (one id for `add`, none otherwise). -/
def applyOp (lib : Library) (op : LibOp) : Library × List Int :=
  match op with
  | .add t a y =>
      let p := add_book lib t a y
      (p.1, [p.2])
  | .remove i => ((remove_book lib i).1, [])
  | .update i s => ((update_status lib i s).1, [])

/-- Run a sequence of operations, collecting all assigned ids in order. -/
def runOps (lib : Library) : List LibOp → Library × List Int
  | [] => (lib, [])
  | op :: ops =>
      let p := applyOp lib op
      let q := runOps p.1 ops
      (q.1, p.2 ++ q.2)

/-- The `next_id` value that `load_books` derives from a list of books:
`max(1, max book_id + 1)` computed by the fold of the source. -/
def derivedNextId (bs : List Book) : Int :=
  bs.foldl (fun c b => max c (b.book_id + 1)) 1

/-- Maximum id of a list of record objects (meaningful for nonempty lists):
the `max_id_seen` of the specification. -/
def specMaxId (ds : List BookDict) : Int :=
  ds.foldl (fun c d => max c d.id) (ds.headD ⟨0, "", "", 0, ""⟩).id

/-- The store invariant: all ids pairwise distinct, and `current_id`
strictly above every stored id. -/
def LibInv (lib : Library) : Prop :=
  lib.books.Pairwise (fun a b => a.book_id ≠ b.book_id) ∧
  ∀ b ∈ lib.books, b.book_id < lib.current_id

/-! ## Basic lemmas about serialization and the id fold -/

theorem Book.from_to_dict (b : Book) : Book.from_dict (Book.to_dict b) = b := rfl

theorem map_from_to_comp (bs : List Book) :
    List.map (Book.from_dict ∘ Book.to_dict) bs = bs := by
  induction bs with
  | nil => rfl
  | cons b tl ih =>
      simp only [List.map_cons, ih]
      rfl

theorem map_from_to_dict (bs : List Book) :
    (bs.map Book.to_dict).map Book.from_dict = bs := by
  rw [List.map_map, map_from_to_comp]

theorem foldl_max_shift (ds : List BookDict) (a b : Int) :
    ds.foldl (fun c d => max c (d.id + 1)) (max a b) =
      max a (ds.foldl (fun c d => max c (d.id + 1)) b) := by
  induction ds generalizing b with
  | nil => rfl
  | cons d tl ih =>
      simp only [List.foldl_cons]
      rw [max_assoc, ih]

theorem foldl_max_add_one (ds : List BookDict) (a : Int) :
    ds.foldl (fun c d => max c (d.id + 1)) (a + 1) =
      ds.foldl (fun c d => max c d.id) a + 1 := by
  induction ds generalizing a with
  | nil => rfl
  | cons d tl ih =>
      simp only [List.foldl_cons]
      rw [max_add_add_right, ih]

theorem specMaxId_cons (d : BookDict) (tl : List BookDict) :
    specMaxId (d :: tl) = tl.foldl (fun c x => max c x.id) d.id := by
  simp [specMaxId, List.foldl_cons, max_self]

theorem derivedNextId_parsed (ds : List BookDict) :
    derivedNextId (ds.map Book.from_dict) =
      if ds = [] then 1 else max 1 (specMaxId ds + 1) := by
  cases ds with
  | nil => rfl
  | cons d tl =>
      have h0 : derivedNextId ((d :: tl).map Book.from_dict) =
          tl.foldl (fun c x => max c (x.id + 1)) (max 1 (d.id + 1)) := by
        simp [derivedNextId, List.foldl_map, Book.from_dict]
      rw [h0, foldl_max_shift, foldl_max_add_one, ← specMaxId_cons]
      simp

/-! ## Claim C1: save/load round trip -/

/-- C1 as stated is false: the record sequence does round-trip, but
`next_id` does not in general.  A catalog with no records and `next_id = 5`
saves to an empty file, and loading that file yields `next_id = 1`, not 5. -/
theorem C1_roundtrip_counterexample :
    (load_books (save_books ⟨[], 5, .missing⟩).file).1.current_id ≠ 5 := by
  decide

/-- C1 amended: saving then loading reproduces the identical ordered record
sequence, and the loaded `next_id` is the value `max (1, max id + 1)`
derived from the records, so the original `next_id` is reproduced exactly
when it already equals that derived value. -/
theorem C1_roundtrip_amended (lib : Library) :
    (load_books (save_books lib).file).1.books = lib.books ∧
    (load_books (save_books lib).file).1.current_id = derivedNextId lib.books ∧
    ((load_books (save_books lib).file).1.current_id = lib.current_id ↔
      lib.current_id = derivedNextId lib.books) := by
  have hb : (load_books (save_books lib).file).1.books = lib.books := by
    simp only [save_books, load_books]
    exact map_from_to_dict lib.books
  have hc : (load_books (save_books lib).file).1.current_id
      = derivedNextId lib.books := by
    simp only [save_books, load_books, derivedNextId]
    rw [map_from_to_dict]
  refine ⟨hb, hc, ?_⟩
  rw [hc]
  exact eq_comm

/-! ## Claim C2: behavior of add -/

/-- C2 as stated is false on the literal default status: the record that
`add` constructs has status `"в наличии"` (the source's default), not the
string `"available"`. -/
theorem C2_add_counterexample :
    (add_book ⟨[], 1, .missing⟩ "Dune" "Herbert" 1965).1.books ≠
      [⟨1, "Dune", "Herbert", 1965, "available"⟩] := by
  decide

/-- C2 amended: `add` always succeeds; it appends a record with id equal to
the current `next_id` and the default status (the literal `"в наличии"`),
increments `next_id`, overwrites the file with the new catalog's
serialization, and reports the assigned id. -/
theorem C2_add_amended (lib : Library) (t a : String) (y : Int) :
    add_book lib t a y =
      ({ books := lib.books ++ [(⟨lib.current_id, t, a, y, defaultStatus⟩ : Book)],
         current_id := lib.current_id + 1,
         file := FileContent.parsed ((lib.books ++
           [(⟨lib.current_id, t, a, y, defaultStatus⟩ : Book)]).map Book.to_dict) },
       lib.current_id) ∧
    defaultStatus = "в наличии" := by
  exact ⟨rfl, rfl⟩

/-! ## Claim C3: load of a syntactically invalid file -/

/-- C3: loading a file that exists but is not valid JSON yields the empty
catalog with `next_id = 1`, reports the unreadable-file diagnostic (an
outcome distinct from the silent ones), leaves the file content untouched,
and returns normally. -/
theorem C3_load_invalid :
    load_books FileContent.invalid = (⟨[], 1, .invalid⟩, .unreadable) ∧
    LoadReport.unreadable ≠ LoadReport.fresh ∧
    LoadReport.unreadable ≠ LoadReport.loaded := by
  decide

/-! ## Claim C4: load of a well-formed file -/

/-- C4 as stated is false for negative ids: a file whose single record has
id `-1` loads with `next_id = 1`, while `max_id_seen + 1` would be 0. -/
theorem C4_load_counterexample :
    (load_books (.parsed [⟨-1, "t", "a", 2000, "s"⟩])).1.current_id = 1 ∧
    specMaxId [⟨-1, "t", "a", 2000, "s"⟩] + 1 = 0 ∧
    (1 : Int) ≠ 0 := by
  decide

/-- C4 amended: after loading a well-formed file the catalog is exactly the
file's records in file order, and `next_id` is `max (1, max id seen + 1)`
(so `max id + 1` whenever the maximum id is nonnegative), or 1 if the file
contained zero records. -/
theorem C4_load_amended (ds : List BookDict) :
    (load_books (.parsed ds)).1.books = ds.map Book.from_dict ∧
    (load_books (.parsed ds)).1.current_id =
      (if ds = [] then 1 else max 1 (specMaxId ds + 1)) ∧
    (load_books (.parsed ds)).2 = .loaded := by
  refine ⟨rfl, ?_, rfl⟩
  have h1 : (load_books (.parsed ds)).1.current_id
      = derivedNextId (ds.map Book.from_dict) := rfl
  rw [h1, derivedNextId_parsed]

/-! ## Claim C5: search semantics -/

/-- C5: for the four allowed fields, `search` returns exactly the records,
in catalog order, whose field's string form equals the value under the
case-insensitive exact comparison; any other field yields the invalid-field
outcome.  In particular searching status for "Available" matches a record
with status "available" but not one with status "unavailable", and
searching status for "В НАЛИЧИИ" matches a record carrying the default
status "в наличии" (the Unicode lowercasing, not only the ASCII one). -/
theorem C5_search (lib : Library) (key value : String) :
    ((key = "title" ∨ key = "author" ∨ key = "year" ∨ key = "status") →
      ∃ l, search_books lib key value = .results l ∧
        List.Sublist l lib.books ∧
        ∀ b, b ∈ l ↔ b ∈ lib.books ∧ matchesKey b key value = true) ∧
    (¬ (key = "title" ∨ key = "author" ∨ key = "year" ∨ key = "status") →
      search_books lib key value = .invalidField) ∧
    search_books ⟨[⟨1, "t", "a", 2000, "available"⟩,
      ⟨2, "t", "a", 2000, "unavailable"⟩], 3, .missing⟩ "status" "Available" =
      .results [⟨1, "t", "a", 2000, "available"⟩] ∧
    search_books ⟨[⟨1, "t", "a", 2000, defaultStatus⟩], 2, .missing⟩
      "status" "В НАЛИЧИИ" =
      .results [⟨1, "t", "a", 2000, defaultStatus⟩] := by
  refine ⟨?_, ?_, by decide, by decide⟩
  · intro h
    refine ⟨lib.books.filter (fun b => matchesKey b key value), ?_, ?_, ?_⟩
    · simp [search_books, h]
    · exact List.filter_sublist lib.books
    · intro b
      simp [List.mem_filter]
  · intro h
    simp [search_books, h]

/-- Witness for C5: a catalog whose single record has status "available"
is searched by its status, and searching an empty catalog by the key
"isbn" is rejected. -/
theorem C5_search_witness :
    (∃ l, search_books ⟨[⟨1, "t", "a", 2000, "available"⟩], 2, .missing⟩
        "status" "x" = .results l ∧
      List.Sublist l [⟨1, "t", "a", 2000, "available"⟩] ∧
      ∀ b, b ∈ l ↔ b ∈ [(⟨1, "t", "a", 2000, "available"⟩ : Book)] ∧
        matchesKey b "status" "x" = true) ∧
    search_books ⟨[], 1, .missing⟩ "isbn" "x" = .invalidField := by
  constructor
  · exact (C5_search ⟨[⟨1, "t", "a", 2000, "available"⟩], 2, .missing⟩
      "status" "x").1 (Or.inr (Or.inr (Or.inr rfl)))
  · exact (C5_search ⟨[], 1, .missing⟩ "isbn" "x").2.1 (by decide)

/-! ## Lemmas about find, erase and status update -/

theorem find_mem_split (pre post : List Book) (b : Book) (i : Int)
    (hb : b.book_id = i) :
    ∃ x, (pre ++ b :: post).find? (fun y => y.book_id == i) = some x := by
  have hs : ((pre ++ b :: post).find? (fun y => y.book_id == i)).isSome :=
    List.find?_isSome.2 ⟨b, by simp, by simp [hb]⟩
  exact Option.isSome_iff_exists.1 hs

theorem eraseFirstById_split (pre post : List Book) (b : Book) (i : Int)
    (hb : b.book_id = i) (hpre : ∀ x ∈ pre, x.book_id ≠ i) :
    eraseFirstById (pre ++ b :: post) i = pre ++ post := by
  induction pre with
  | nil => simp [eraseFirstById, hb]
  | cons x tl ih =>
      have hx : x.book_id ≠ i := hpre x (by simp)
      simp only [List.cons_append, eraseFirstById, if_neg hx, List.append_eq]
      rw [ih (fun y hy => hpre y (by simp [hy]))]

theorem updateFirstStatus_split (pre post : List Book) (b : Book) (i : Int)
    (s : String) (hb : b.book_id = i) (hpre : ∀ x ∈ pre, x.book_id ≠ i) :
    updateFirstStatus (pre ++ b :: post) i s =
      pre ++ { b with status := s } :: post := by
  induction pre with
  | nil => simp [updateFirstStatus, hb]
  | cons x tl ih =>
      have hx : x.book_id ≠ i := hpre x (by simp)
      simp only [List.cons_append, updateFirstStatus, if_neg hx, List.append_eq]
      rw [ih (fun y hy => hpre y (by simp [hy]))]

theorem remove_book_split (lib : Library) (pre post : List Book) (b : Book)
    (i : Int) (hbooks : lib.books = pre ++ b :: post)
    (hb : b.book_id = i) (hpre : ∀ x ∈ pre, x.book_id ≠ i) :
    remove_book lib i =
      (save_books { lib with books := pre ++ post }, .success) := by
  obtain ⟨x, hx⟩ := find_mem_split pre post b i hb
  unfold remove_book
  rw [hbooks, hx, eraseFirstById_split pre post b i hb hpre]

theorem update_status_split (lib : Library) (pre post : List Book) (b : Book)
    (i : Int) (s : String) (hbooks : lib.books = pre ++ b :: post)
    (hb : b.book_id = i) (hpre : ∀ x ∈ pre, x.book_id ≠ i) :
    update_status lib i s =
      (save_books { lib with books := pre ++ { b with status := s } :: post },
       .success) := by
  obtain ⟨x, hx⟩ := find_mem_split pre post b i hb
  unfold update_status
  rw [hbooks, hx, updateFirstStatus_split pre post b i s hb hpre]

/-! ## Claim C8: not-found outcomes -/

/-- C8: when no record carries the requested id, `remove` and
`updateStatus` both return the store completely unchanged (books,
`next_id`, and backing file) together with the not-found outcome, which is
distinguishable from success. -/
theorem C8_not_found (lib : Library) (i : Int) (s : String)
    (h : ∀ b ∈ lib.books, b.book_id ≠ i) :
    remove_book lib i = (lib, .notFound) ∧
    update_status lib i s = (lib, .notFound) ∧
    OpResult.notFound ≠ OpResult.success := by
  have hf : lib.books.find? (fun b => b.book_id == i) = none := by
    rw [List.find?_eq_none]
    intro b hb
    simpa using h b hb
  refine ⟨?_, ?_, by decide⟩
  · unfold remove_book
    rw [hf]
  · unfold update_status
    rw [hf]

/-- Witness for C8: removing or updating id 3 in a catalog holding only
id 1 changes nothing and reports not found. -/
theorem C8_not_found_witness :
    remove_book ⟨[⟨1, "t", "a", 2000, "s"⟩], 2, .missing⟩ 3 =
      (⟨[⟨1, "t", "a", 2000, "s"⟩], 2, .missing⟩, .notFound) ∧
    update_status ⟨[⟨1, "t", "a", 2000, "s"⟩], 2, .missing⟩ 3 "x" =
      (⟨[⟨1, "t", "a", 2000, "s"⟩], 2, .missing⟩, .notFound) ∧
    OpResult.notFound ≠ OpResult.success :=
  C8_not_found ⟨[⟨1, "t", "a", 2000, "s"⟩], 2, .missing⟩ 3 "x" (by decide)

/-! ## Claim C9: frame properties of remove and updateStatus -/

/-- C9: removing the (first) record with a present id deletes exactly that
record, keeping every other record with all its attributes in their
relative order and leaving `next_id` unchanged; updating its status
replaces only that record's status field, leaving its other attributes,
all other records, and `next_id` unchanged.  Both report success. -/
theorem C9_frame (lib : Library) (pre post : List Book) (b : Book) (i : Int)
    (s : String) (hbooks : lib.books = pre ++ b :: post)
    (hb : b.book_id = i) (hpre : ∀ x ∈ pre, x.book_id ≠ i) :
    (remove_book lib i).1.books = pre ++ post ∧
    (remove_book lib i).1.current_id = lib.current_id ∧
    (remove_book lib i).2 = .success ∧
    (update_status lib i s).1.books = pre ++ { b with status := s } :: post ∧
    (update_status lib i s).1.current_id = lib.current_id ∧
    (update_status lib i s).2 = .success := by
  rw [remove_book_split lib pre post b i hbooks hb hpre,
      update_status_split lib pre post b i s hbooks hb hpre]
  simp [save_books]

/-- Witness for C9: removing or status-updating id 2 in a two-record
catalog leaves record 1 byte-for-byte unchanged and `next_id` at 3. -/
theorem C9_frame_witness :
    (remove_book ⟨[⟨1, "t", "a", 2000, "s"⟩, ⟨2, "u", "c", 2001, "r"⟩],
        3, .missing⟩ 2).1.books = [⟨1, "t", "a", 2000, "s"⟩] ∧
    (remove_book ⟨[⟨1, "t", "a", 2000, "s"⟩, ⟨2, "u", "c", 2001, "r"⟩],
        3, .missing⟩ 2).1.current_id = 3 ∧
    (remove_book ⟨[⟨1, "t", "a", 2000, "s"⟩, ⟨2, "u", "c", 2001, "r"⟩],
        3, .missing⟩ 2).2 = .success ∧
    (update_status ⟨[⟨1, "t", "a", 2000, "s"⟩, ⟨2, "u", "c", 2001, "r"⟩],
        3, .missing⟩ 2 "loaned").1.books =
      [⟨1, "t", "a", 2000, "s"⟩, ⟨2, "u", "c", 2001, "loaned"⟩] ∧
    (update_status ⟨[⟨1, "t", "a", 2000, "s"⟩, ⟨2, "u", "c", 2001, "r"⟩],
        3, .missing⟩ 2 "loaned").1.current_id = 3 ∧
    (update_status ⟨[⟨1, "t", "a", 2000, "s"⟩, ⟨2, "u", "c", 2001, "r"⟩],
        3, .missing⟩ 2 "loaned").2 = .success :=
  C9_frame ⟨[⟨1, "t", "a", 2000, "s"⟩, ⟨2, "u", "c", 2001, "r"⟩], 3, .missing⟩
    [⟨1, "t", "a", 2000, "s"⟩] [] ⟨2, "u", "c", 2001, "r"⟩ 2 "loaned"
    rfl rfl (by decide)

/-! ## Claim C10: duplicate ids affect only the first occurrence -/

/-- C10: when a later record `d` duplicates the id of the first matching
record `b`, `remove` deletes exactly `b` and `updateStatus` rewrites
exactly `b`'s status; the later duplicate `d` (and all of `post`) survives
unchanged in both results. -/
theorem C10_first_duplicate (lib : Library) (pre post : List Book)
    (b d : Book) (i : Int) (s : String)
    (hbooks : lib.books = pre ++ b :: post)
    (hb : b.book_id = i) (hpre : ∀ x ∈ pre, x.book_id ≠ i)
    (hd : d ∈ post) (hdi : d.book_id = i) :
    b.book_id = d.book_id ∧
    (remove_book lib i).1.books = pre ++ post ∧
    d ∈ (remove_book lib i).1.books ∧
    (update_status lib i s).1.books = pre ++ { b with status := s } :: post ∧
    d ∈ (update_status lib i s).1.books := by
  rw [remove_book_split lib pre post b i hbooks hb hpre,
      update_status_split lib pre post b i s hbooks hb hpre]
  refine ⟨hb.trans hdi.symm, rfl, ?_, rfl, ?_⟩
  · exact List.mem_append_right _ hd
  · exact List.mem_append_right _ (List.mem_cons_of_mem _ hd)

/-- Witness for C10: a catalog loaded with two records that both carry
id 1; remove and updateStatus touch only the first. -/
theorem C10_first_duplicate_witness :
    (⟨1, "t", "a", 2000, "s"⟩ : Book).book_id =
      (⟨1, "u", "c", 2001, "r"⟩ : Book).book_id ∧
    (remove_book ⟨[⟨1, "t", "a", 2000, "s"⟩, ⟨1, "u", "c", 2001, "r"⟩],
        2, .missing⟩ 1).1.books = [⟨1, "u", "c", 2001, "r"⟩] ∧
    (⟨1, "u", "c", 2001, "r"⟩ : Book) ∈
      (remove_book ⟨[⟨1, "t", "a", 2000, "s"⟩, ⟨1, "u", "c", 2001, "r"⟩],
        2, .missing⟩ 1).1.books ∧
    (update_status ⟨[⟨1, "t", "a", 2000, "s"⟩, ⟨1, "u", "c", 2001, "r"⟩],
        2, .missing⟩ 1 "x").1.books =
      [⟨1, "t", "a", 2000, "x"⟩, ⟨1, "u", "c", 2001, "r"⟩] ∧
    (⟨1, "u", "c", 2001, "r"⟩ : Book) ∈
      (update_status ⟨[⟨1, "t", "a", 2000, "s"⟩, ⟨1, "u", "c", 2001, "r"⟩],
        2, .missing⟩ 1 "x").1.books :=
  C10_first_duplicate
    ⟨[⟨1, "t", "a", 2000, "s"⟩, ⟨1, "u", "c", 2001, "r"⟩], 2, .missing⟩
    [] [⟨1, "u", "c", 2001, "r"⟩] ⟨1, "t", "a", 2000, "s"⟩
    ⟨1, "u", "c", 2001, "r"⟩ 1 "x" rfl rfl (by decide) (by decide) rfl

/-! ## Lemmas about current_id and the invariant along operation traces -/

theorem add_book_cid (lib : Library) (t a : String) (y : Int) :
    (add_book lib t a y).1.current_id = lib.current_id + 1 := rfl

theorem add_book_assigned (lib : Library) (t a : String) (y : Int) :
    (add_book lib t a y).2 = lib.current_id := rfl

theorem remove_book_cid (lib : Library) (i : Int) :
    (remove_book lib i).1.current_id = lib.current_id := by
  unfold remove_book
  cases hf : lib.books.find? (fun b => b.book_id == i) <;> rfl

theorem update_status_cid (lib : Library) (i : Int) (s : String) :
    (update_status lib i s).1.current_id = lib.current_id := by
  unfold update_status
  cases hf : lib.books.find? (fun b => b.book_id == i) <;> rfl

theorem remove_book_books_cases (lib : Library) (i : Int) :
    (remove_book lib i).1.books = lib.books ∨
    (remove_book lib i).1.books = eraseFirstById lib.books i := by
  unfold remove_book
  cases hf : lib.books.find? (fun b => b.book_id == i)
  · left; rfl
  · right; rfl

theorem update_status_books_cases (lib : Library) (i : Int) (s : String) :
    (update_status lib i s).1.books = lib.books ∨
    (update_status lib i s).1.books = updateFirstStatus lib.books i s := by
  unfold update_status
  cases hf : lib.books.find? (fun b => b.book_id == i)
  · left; rfl
  · right; rfl

theorem eraseFirstById_sublist (l : List Book) (i : Int) :
    List.Sublist (eraseFirstById l i) l := by
  induction l with
  | nil => exact List.Sublist.refl []
  | cons b tl ih =>
      by_cases h : b.book_id = i
      · simp only [eraseFirstById, if_pos h]
        exact List.sublist_cons_self b tl
      · simp only [eraseFirstById, if_neg h]
        exact ih.cons₂ b

theorem remove_book_books_sublist (lib : Library) (i : Int) :
    List.Sublist (remove_book lib i).1.books lib.books := by
  rcases remove_book_books_cases lib i with h | h
  · rw [h]
  · rw [h]; exact eraseFirstById_sublist lib.books i

theorem updateFirstStatus_map_id (l : List Book) (i : Int) (s : String) :
    (updateFirstStatus l i s).map Book.book_id = l.map Book.book_id := by
  induction l with
  | nil => rfl
  | cons b tl ih =>
      by_cases h : b.book_id = i
      · simp only [updateFirstStatus, if_pos h, List.map_cons]
      · simp only [updateFirstStatus, if_neg h, List.map_cons, ih]

theorem applyOp_cid_mono (lib : Library) (op : LibOp) :
    lib.current_id ≤ (applyOp lib op).1.current_id := by
  cases op with
  | add t a y =>
      show lib.current_id ≤ (add_book lib t a y).1.current_id
      rw [add_book_cid]
      exact le_of_lt (lt_add_one lib.current_id)
  | remove i =>
      show lib.current_id ≤ (remove_book lib i).1.current_id
      rw [remove_book_cid]
  | update i s =>
      show lib.current_id ≤ (update_status lib i s).1.current_id
      rw [update_status_cid]

theorem applyOp_inv (lib : Library) (op : LibOp) (h : LibInv lib) :
    LibInv (applyOp lib op).1 := by
  obtain ⟨hpw, hlt⟩ := h
  cases op with
  | add t a y =>
      show LibInv (add_book lib t a y).1
      constructor
      · show (lib.books ++
            [(⟨lib.current_id, t, a, y, defaultStatus⟩ : Book)]).Pairwise
            (fun a b => a.book_id ≠ b.book_id)
        rw [List.pairwise_append]
        refine ⟨hpw, List.pairwise_singleton .., ?_⟩
        intro x hx z hz
        have hz2 : z = ⟨lib.current_id, t, a, y, defaultStatus⟩ := by
          simpa using hz
        rw [hz2]
        exact ne_of_lt (hlt x hx)
      · intro b hb
        rw [add_book_cid]
        have hb2 : b ∈ lib.books ++
            [(⟨lib.current_id, t, a, y, defaultStatus⟩ : Book)] := hb
        rcases List.mem_append.1 hb2 with hmem | hmem
        · exact lt_trans (hlt b hmem) (lt_add_one lib.current_id)
        · have : b = ⟨lib.current_id, t, a, y, defaultStatus⟩ := by
            simpa using hmem
          rw [this]
          exact lt_add_one lib.current_id
  | remove i =>
      show LibInv (remove_book lib i).1
      have hs := remove_book_books_sublist lib i
      refine ⟨hpw.sublist hs, ?_⟩
      intro b hb
      rw [remove_book_cid]
      exact hlt b (hs.subset hb)
  | update i s =>
      show LibInv (update_status lib i s).1
      have hm : (update_status lib i s).1.books.map Book.book_id
          = lib.books.map Book.book_id := by
        rcases update_status_books_cases lib i s with h | h
        · rw [h]
        · rw [h]; exact updateFirstStatus_map_id lib.books i s
      constructor
      · have h1 : (lib.books.map Book.book_id).Pairwise (fun a b => a ≠ b) :=
          List.pairwise_map.2 hpw
        have h2 : ((update_status lib i s).1.books.map Book.book_id).Pairwise
            (fun a b => a ≠ b) := by
          rw [hm]; exact h1
        exact List.pairwise_map.1 h2
      · intro b hb
        have hmem : b.book_id ∈
            (update_status lib i s).1.books.map Book.book_id :=
          List.mem_map_of_mem Book.book_id hb
        rw [hm] at hmem
        obtain ⟨c, hc, hcb⟩ := List.mem_map.1 hmem
        rw [update_status_cid, ← hcb]
        exact hlt c hc

theorem runOps_inv (lib : Library) (ops : List LibOp) (h : LibInv lib) :
    LibInv (runOps lib ops).1 := by
  induction ops generalizing lib with
  | nil => exact h
  | cons op ops ih => exact ih (applyOp lib op).1 (applyOp_inv lib op h)

theorem runOps_assigned_lb (lib : Library) (ops : List LibOp) :
    ∀ j ∈ (runOps lib ops).2, lib.current_id ≤ j := by
  induction ops generalizing lib with
  | nil =>
      intro j hj
      simp [runOps] at hj
  | cons op ops ih =>
      intro j hj
      have hsplit : (runOps lib (op :: ops)).2
          = (applyOp lib op).2 ++ (runOps (applyOp lib op).1 ops).2 := rfl
      rw [hsplit] at hj
      rcases List.mem_append.1 hj with hl | hr
      · cases op with
        | add t a y =>
            have hji : j = lib.current_id := by
              simpa [applyOp, add_book_assigned] using hl
            exact le_of_eq hji.symm
        | remove i => simp [applyOp] at hl
        | update i s => simp [applyOp] at hl
      · exact le_trans (applyOp_cid_mono lib op) (ih (applyOp lib op).1 j hr)

/-! ## Claim C6: id monotonicity along any operation trace -/

/-- C6: along any sequence of operations started from any store state, the
chronological sequence of ids assigned by the add operations is strictly
increasing: every newly assigned id exceeds every id assigned before it,
including ids whose records were removed in between. -/
theorem C6_id_monotonic (lib : Library) (ops : List LibOp) :
    ((runOps lib ops).2).Pairwise (fun a b => a < b) := by
  induction ops generalizing lib with
  | nil => exact List.Pairwise.nil
  | cons op ops ih =>
      have hsplit : (runOps lib (op :: ops)).2
          = (applyOp lib op).2 ++ (runOps (applyOp lib op).1 ops).2 := rfl
      rw [hsplit, List.pairwise_append]
      refine ⟨?_, ih (applyOp lib op).1, ?_⟩
      · cases op with
        | add t a y => exact List.pairwise_singleton ..
        | remove i => exact List.Pairwise.nil
        | update i s => exact List.Pairwise.nil
      · intro x hx z hz
        cases op with
        | add t a y =>
            have hx2 : x = lib.current_id := by
              simpa [applyOp, add_book_assigned] using hx
            have hz2 : lib.current_id + 1 ≤ z := by
              have hlb := runOps_assigned_lb (applyOp lib (.add t a y)).1 ops z hz
              rwa [show (applyOp lib (LibOp.add t a y)).1.current_id
                  = lib.current_id + 1 from rfl] at hlb
            rw [hx2]
            exact lt_of_lt_of_le (lt_add_one lib.current_id) hz2
        | remove i => simp [applyOp] at hx
        | update i s => simp [applyOp] at hx

/-! ## Claim C7: reachable-state invariants -/

/-- C7: in every state reachable from an empty catalog by add, remove and
update-status operations, the record ids are pairwise distinct and
`next_id` strictly exceeds every stored id; moreover `next_id` never
decreases across any single operation. -/
theorem C7_invariants (f : FileContent) (ops : List LibOp) :
    ((runOps ⟨[], 1, f⟩ ops).1.books).Pairwise
      (fun a b => a.book_id ≠ b.book_id) ∧
    (∀ b ∈ (runOps ⟨[], 1, f⟩ ops).1.books,
      b.book_id < (runOps ⟨[], 1, f⟩ ops).1.current_id) ∧
    ∀ lib op, lib.current_id ≤ (applyOp lib op).1.current_id := by
  have h0 : LibInv ⟨[], 1, f⟩ := ⟨List.Pairwise.nil, by simp⟩
  obtain ⟨h1, h2⟩ := runOps_inv ⟨[], 1, f⟩ ops h0
  exact ⟨h1, h2, fun lib op => applyOp_cid_mono lib op⟩
